import Mathlib

/-!
Verification of the EBYÜ thesis-format checker (`checker.py`, `utils.py`, `config.py`)

A shallow embedding of the analysis core of the repository: the style-cascade
resolver (`utils.StyleResolver`), the structural classifier and rule engine
(`checker.ThesisChecker`), and the compliance aggregator
(`checker.ThesisChecker._generate_report`).

Modelling conventions:
* Python strings are Lean `String`s; the Python string operations used by the
  source (`strip`, `upper`, `lower`, `split`, substring `in`, `isdigit`,
  `isupper`, `isalnum`) are re-implemented below with Python's semantics on the
  character repertoire the checker handles (ASCII plus the Turkish letters
  Ç/Ğ/İ/Ö/Ş/Ü and their lowercase forms).  In particular Python's `str.upper`
  maps `i` to dotless `I`.
* Python floats are modelled as exact rationals `ℚ`; `round(x, n)` is
  round-half-even (`rhe`), which is what Python uses.
* `python-docx` `Length` objects are rationals counted in EMU
  (1 cm = 360000 EMU, 1 pt = 12700 EMU); their `.cm` / `.pt` properties are
  exact divisions.
* Mutation of `self` in `ThesisChecker` becomes explicit state passing over
  `CoreState` / `CheckerState`; `analyze`'s `try/except` around document
  loading becomes an `Except String Document` argument.
* Run highlighting (`_highlight_paragraph`) writes run properties that are
  never read back by the analysis and do not appear in the report; it is not
  modelled.
* The unbounded `while style:` loops of `StyleResolver` are modelled twice:
  a fuel-indexed walk (`styleChainFuel`) whose `none` result means "still
  looping after the given fuel" (used to analyse termination), and a bounded
  variant used by the pipeline with fuel `doc.styles.length + 1`, which agrees
  with Python whenever the chain terminates.
-/

namespace TezKontrol

/-! ## Python character and string primitives -/

/-- Python `str.strip()` whitespace (the ASCII part, which is all the checker
feeds it). -/
def isPyWs (c : Char) : Bool :=
  c = ' ' ∨ c = '\t' ∨ c = '\n' ∨ c = '\x0d' ∨ c = '\x0b' ∨ c = '\x0c'

def stripList (l : List Char) : List Char :=
  ((l.dropWhile isPyWs).reverse.dropWhile isPyWs).reverse

/-- Python `text.strip()`. -/
def pyStrip (s : String) : String := String.mk (stripList s.data)

/-- Python `str.upper` on one character (ASCII + Turkish repertoire).
Note Python maps `i` to `I` (not to `İ`). -/
def pyUpperChar (c : Char) : Char :=
  if 'a' ≤ c ∧ c ≤ 'z' then Char.ofNat (c.toNat - 32)
  else if c = 'ç' then 'Ç' else if c = 'ğ' then 'Ğ' else if c = 'ı' then 'I'
  else if c = 'ö' then 'Ö' else if c = 'ş' then 'Ş' else if c = 'ü' then 'Ü'
  else c

/-- Python `str.lower` on one character (ASCII + Turkish repertoire).
Python maps `I` to ASCII `i`. -/
def pyLowerChar (c : Char) : Char :=
  if 'A' ≤ c ∧ c ≤ 'Z' then Char.ofNat (c.toNat + 32)
  else if c = 'Ç' then 'ç' else if c = 'Ğ' then 'ğ'
  else if c = 'Ö' then 'ö' else if c = 'Ş' then 'ş' else if c = 'Ü' then 'ü'
  else c

def pyUpper (s : String) : String := String.mk (s.data.map pyUpperChar)

def pyLower (s : String) : String := String.mk (s.data.map pyLowerChar)

/-- The simple case folding used by `re.IGNORECASE` for the repertoire in use:
simple lowercase, with both `I` and `İ` folding to `i`. -/
def reFoldChar (c : Char) : Char :=
  if c = 'İ' then 'i' else pyLowerChar c

/-- Substring containment on char lists (Python `needle in haystack`). -/
def containsSub (needle : List Char) : List Char → Bool
  | [] => needle.isEmpty
  | c :: rest => needle.isPrefixOf (c :: rest) || containsSub needle rest

/-- Python `needle in haystack` for strings. -/
def strIn (needle haystack : String) : Bool :=
  containsSub needle.data haystack.data

def strStartsWith (s pre : String) : Bool := pre.data.isPrefixOf s.data

def strEndsWith (s suf : String) : Bool := suf.data.isSuffixOf s.data

def isDigitChar (c : Char) : Bool := '0' ≤ c ∧ c ≤ '9'

/-- Python `text.isdigit()` for the ASCII digits the checker meets. -/
def pyIsDigit (s : String) : Bool :=
  ¬ s.data.isEmpty ∧ s.data.all isDigitChar

def isUpperTR (c : Char) : Bool :=
  ('A' ≤ c ∧ c ≤ 'Z') ∨ c = 'Ç' ∨ c = 'Ğ' ∨ c = 'İ' ∨ c = 'Ö' ∨ c = 'Ş' ∨ c = 'Ü'

def isLowerTR (c : Char) : Bool :=
  ('a' ≤ c ∧ c ≤ 'z') ∨ c = 'ç' ∨ c = 'ğ' ∨ c = 'ı' ∨ c = 'ö' ∨ c = 'ş' ∨ c = 'ü'

def isAlphaTR (c : Char) : Bool := isUpperTR c || isLowerTR c

def isAlnumTR (c : Char) : Bool := isAlphaTR c || isDigitChar c

/-- Python `word.isupper()`: at least one cased character and no lowercase
cased character. -/
def pyIsUpper (s : String) : Bool :=
  s.data.any isAlphaTR ∧ s.data.all (fun c => !(isLowerTR c))

/-- Splitting on whitespace runs, Python `text.split()` with no argument. -/
def splitWsGo (cur : List Char) (acc : List (List Char)) :
    List Char → List (List Char)
  | [] => if cur.isEmpty then acc.reverse else (cur.reverse :: acc).reverse
  | c :: rest =>
      if isPyWs c then
        if cur.isEmpty then splitWsGo [] acc rest
        else splitWsGo [] (cur.reverse :: acc) rest
      else splitWsGo (c :: cur) acc rest

def pySplitWs (s : String) : List String :=
  (splitWsGo [] [] s.data).map String.mk

/-- Splitting on a single separator character, Python `text.split(sep)`
(keeps empty pieces). -/
def splitChGo (sep : Char) (cur : List Char) (acc : List (List Char)) :
    List Char → List (List Char)
  | [] => (cur.reverse :: acc).reverse
  | c :: rest =>
      if c = sep then splitChGo sep [] (cur.reverse :: acc) rest
      else splitChGo sep (c :: cur) acc rest

def pySplitCh (sep : Char) (s : String) : List String :=
  (splitChGo sep [] [] s.data).map String.mk

/-- Python `int(s)` on a digit string. -/
def natOfDigits (l : List Char) : ℕ :=
  l.foldl (fun n c => 10 * n + (c.toNat - '0'.toNat)) 0

def pyIntOfStr (s : String) : ℕ := natOfDigits s.data

/-- Stable ascending insertion (Python `sorted`): a new element goes after
existing equal elements. -/
def insertSorted [LE α] [DecidableRel (fun a b : α => a ≤ b)] (x : α) :
    List α → List α
  | [] => [x]
  | y :: ys => if y ≤ x then y :: insertSorted x ys else x :: y :: ys

/-- Python `sorted(xs)` (stable, ascending). -/
def pySorted [LE α] [DecidableRel (fun a b : α => a ≤ b)] (l : List α) : List α :=
  l.foldl (fun acc x => insertSorted x acc) []

/-- Python `", ".join(parts)` and friends. -/
def strJoin (sep : String) : List String → String
  | [] => ""
  | [x] => x
  | x :: rest => x ++ sep ++ strJoin sep rest

/-- Python `text[:n]` (character slicing). -/
def pyTake (s : String) (n : ℕ) : String := String.mk (s.data.take n)

def pyLen (s : String) : ℕ := s.data.length

/-! ## Exact rational model of Python floats and rounding -/

/-- Round half to even (what Python's `round` and float formatting use). -/
def rhe (q : ℚ) : ℤ :=
  if q - (⌊q⌋ : ℚ) < 1/2 then ⌊q⌋
  else if 1/2 < q - (⌊q⌋ : ℚ) then ⌊q⌋ + 1
  else if Even ⌊q⌋ then ⌊q⌋ else ⌊q⌋ + 1

/-- Python `round(x, 1)`. -/
def pyRound1 (q : ℚ) : ℚ := (rhe (10 * q) : ℚ) / 10

/-- Python `round(x, 2)`. -/
def pyRound2 (q : ℚ) : ℚ := (rhe (100 * q) : ℚ) / 100

/-- Python `int(x)` on a float: truncation toward zero. -/
def pyIntTrunc (q : ℚ) : ℤ := if 0 ≤ q then ⌊q⌋ else -⌊-q⌋

/-- Digits rendering of a nonnegative integer scaled by `10 ^ prec`,
e.g. `fmtScaled 1 125 = "12.5"`. -/
def fmtScaled (prec : ℕ) (n : ℕ) : String :=
  toString (n / 10 ^ prec) ++ "." ++
    (let frac := toString (n % 10 ^ prec)
     String.mk (List.replicate (prec - frac.length) '0') ++ frac)

/-- Python `format(x, '.1f')`. -/
def fmtFixed1 (q : ℚ) : String :=
  let n := rhe (10 * q)
  if n < 0 then "-" ++ fmtScaled 1 n.natAbs
  else if q < 0 then "-" ++ fmtScaled 1 n.natAbs
  else fmtScaled 1 n.natAbs

/-- Python `format(x, '.2f')`. -/
def fmtFixed2 (q : ℚ) : String :=
  let n := rhe (100 * q)
  if n < 0 then "-" ++ fmtScaled 2 n.natAbs
  else if q < 0 then "-" ++ fmtScaled 2 n.natAbs
  else fmtScaled 2 n.natAbs

/-- Python `str(x)` for the finite-decimal floats that appear in the
configuration (`3.0`, `1.25`, `0.1`, …): shortest decimal with at least one
fractional digit. -/
def pyStrFloat (q : ℚ) : String :=
  let sgn := if q < 0 then "-" else ""
  let a := |q|
  match (List.range 17).find? (fun k => ((a * 10 ^ k).den = 1)) with
  | some k => sgn ++ fmtScaled (max k 1) ((a * 10 ^ (max k 1)).num.natAbs)
  | none => toString q

/-! ## Units (`utils.py` conversion constants; lengths are EMU rationals) -/

def EMU_PER_CM : ℚ := 360000
def EMU_PER_PT : ℚ := 12700

/-- A `python-docx` `Length`: EMU count. -/
abbrev Length := ℚ

def Length.cm (l : Length) : ℚ := l / EMU_PER_CM

def Length.pt (l : Length) : ℚ := l / EMU_PER_PT

def Pt (x : ℚ) : Length := x * EMU_PER_PT

def Cm (x : ℚ) : Length := x * EMU_PER_CM

/-- Source: `utils.emu_to_cm` (rounds to 2 decimals). -/
def emu_to_cm (emu : Option ℚ) : Option ℚ :=
  emu.map (fun e => pyRound2 (e / EMU_PER_CM))

/-- Source: `utils.count_words`. -/
def count_words (text : String) : ℕ := (pySplitWs text).length

/-- Source: `utils.get_text_snippet`. -/
def get_text_snippet (text : Option String) (maxLength : ℕ := 80) : String :=
  match text with
  | none => ""
  | some t =>
      let t := pyStrip t
      if pyLen t ≤ maxLength then t else pyTake t maxLength ++ "..."

end TezKontrol

namespace TezKontrol

/-! ## `config.py` -/

/-- Source: `config.ErrorCategory`. -/
inductive ErrorCategory
  | MARGIN | FONT | FONT_SIZE | LINE_SPACING | PARAGRAPH | HEADING
  | TABLE | FIGURE | ABSTRACT | REFERENCE | SECTION | NUMBERING
  | SPELLING | FOOTNOTE
deriving DecidableEq

/-- The `.value` strings of `ErrorCategory`. -/
def ErrorCategory.value : ErrorCategory → String
  | .MARGIN => "Kenar Boşluğu Hataları"
  | .FONT => "Yazı Tipi Hataları"
  | .FONT_SIZE => "Yazı Boyutu Hataları"
  | .LINE_SPACING => "Satır Aralığı Hataları"
  | .PARAGRAPH => "Paragraf Hataları"
  | .HEADING => "Başlık Hataları"
  | .TABLE => "Tablo Hataları"
  | .FIGURE => "Şekil Hataları"
  | .ABSTRACT => "Özet Hataları"
  | .REFERENCE => "Kaynakça Hataları"
  | .SECTION => "Bölüm Hataları"
  | .NUMBERING => "Numaralandırma Hataları"
  | .SPELLING => "Yazım Hataları"
  | .FOOTNOTE => "Dipnot Hataları"

/-- Source: `config.FormatError`. -/
structure FormatError where
  category : ErrorCategory
  message : String
  location : String
  expected : String := ""
  found : String := ""
  snippet : String := ""
  severity : String := "error"
deriving DecidableEq

/-- Source: `config.ThesisConfig` (EBYÜ 2022 guideline constants). -/
structure ThesisConfig where
  margin_top : ℚ := 3
  margin_bottom : ℚ := 3
  margin_left : ℚ := 3
  margin_right : ℚ := 3
  chapter_start_margin_top : ℚ := 7
  margin_tolerance_cm : ℚ := 1/10
  font_size_tolerance_pt : ℚ := 1/2
  font_name : String := "Times New Roman"
  font_size_body : ℤ := 12
  font_size_footnote : ℤ := 10
  font_size_block_quote : ℤ := 11
  block_quote_indent_cm : ℚ := 5/4
  font_size_chapter_heading : ℤ := 14
  font_size_subheading : ℤ := 12
  font_size_table_caption : ℤ := 12
  font_size_figure_caption : ℤ := 12
  font_size_table_content : ℤ := 11
  font_size_page_number : ℤ := 10
  line_spacing_body : ℚ := 3/2
  line_spacing_footnote : ℚ := 1
  paragraph_first_line_indent : ℚ := 5/4
  paragraph_spacing_before : ℤ := 6
  paragraph_spacing_after : ℤ := 6
  paragraph_spacing_reference_before : ℤ := 3
  paragraph_spacing_reference_after : ℤ := 3
  reference_hanging_indent : ℚ := 1
  abstract_min_words : ℕ := 200
  abstract_max_words : ℕ := 250
deriving DecidableEq

/-- Source: `config.DEFAULT_CONFIG`. -/
def DEFAULT_CONFIG : ThesisConfig := {}

/-! ## Document object model (`python-docx` view used by the checker) -/

/-- Source: `python-docx` `WD_LINE_SPACING` members used by the code. -/
inductive WDLS
  | single | onePointFive | double | atLeast | exactly | multiple
deriving DecidableEq

/-- A value of `paragraph_format.line_spacing`: a float multiplier when the
spacing rule is multiple, a `Length` otherwise; `rawLine` is the raw integer
that `StyleResolver._get_doc_defaults` stores for document defaults. -/
inductive LSVal
  | mult (q : ℚ)
  | len (l : Length)
  | rawLine (n : ℤ)
deriving DecidableEq

/-- A value of `paragraph_format.line_spacing_rule`: a `WD_LINE_SPACING`
member, or the raw XML string stored for document defaults. -/
inductive LSRule
  | wd (w : WDLS)
  | raw (s : String)
deriving DecidableEq

/-- Direct paragraph-level formatting (`paragraph_format`); lengths in EMU. -/
structure ParaFormat where
  alignment : Option ℕ := none        -- WD_ALIGN_PARAGRAPH numeric value
  left_indent : Option Length := none
  right_indent : Option Length := none
  first_line_indent : Option Length := none
  space_before : Option Length := none
  space_after : Option Length := none
  line_spacing : Option LSVal := none
  line_spacing_rule : Option LSRule := none
deriving DecidableEq

/-- A text run with its direct formatting. `fontName` is the `w:rFonts`
`ascii` attribute (what `run.font.name` reads), `hAnsi`/`theme` the further
XML attributes `get_effective_font_name` inspects; `size` is `run.font.size`
in points; `charStyle` names a character style (used only by the
spec-modelled bold resolution). -/
structure Run where
  text : String := ""
  fontName : Option String := none
  hAnsi : Option String := none
  theme : Option String := none
  size : Option ℚ := none
  bold : Option Bool := none
  italic : Option Bool := none
  charStyle : Option String := none
deriving DecidableEq

structure Paragraph where
  runs : List Run := []
  style : Option String := none
  pf : ParaFormat := {}
  numPr : Bool := false
deriving DecidableEq

/-- Source: `paragraph.text`: order-preserving concatenation of run texts. -/
def paraText (p : Paragraph) : String :=
  String.join (p.runs.map Run.text)

/-- A style definition: name, base style, run defaults and paragraph
defaults (`style.font.*`, `style.paragraph_format.*`). -/
structure StyleDef where
  name : String
  basedOn : Option String := none
  fontName : Option String := none
  fontSize : Option ℚ := none        -- points
  fontBold : Option Bool := none
  fontItalic : Option Bool := none
  pf : ParaFormat := {}
deriving DecidableEq

/-- The document defaults extracted by `StyleResolver._get_doc_defaults`,
kept as the raw XML attributes it reads. -/
structure DocDefaults where
  rFontsAscii : Option String := none
  rFontsHAnsi : Option String := none
  rFontsAsciiTheme : Option String := none
  szHalfPoints : Option ℤ := none
  spacingBefore : Option ℤ := none
  spacingAfter : Option ℤ := none
  spacingLine : Option ℤ := none
  spacingLineRule : Option String := none
  jc : Option String := none
deriving DecidableEq

/-- A page-layout section (`document.sections[i]`); lengths in EMU. -/
structure Sect where
  top_margin : Option Length := none
  bottom_margin : Option Length := none
  left_margin : Option Length := none
  right_margin : Option Length := none
  footer_distance : Option Length := none
  footerParas : List Paragraph := []
deriving DecidableEq

structure TableCell where
  paragraphs : List Paragraph := []
deriving DecidableEq

/-- Source: `cell.text`: newline-joined paragraph texts. -/
def cellText (c : TableCell) : String :=
  strJoin "\n" (c.paragraphs.map paraText)

structure TableRow where
  cells : List TableCell := []
deriving DecidableEq

/-- A table; `tblBorders` is `none` when the `w:tblBorders` element is
absent, otherwise the `w:val` attributes of the six sides checked by
`utils.has_visible_borders`. -/
structure Table where
  rows : List TableRow := []
  tblBorders : Option (List (Option String)) := none
deriving DecidableEq

/-- A body-level element as seen by `_check_element_placement`
(`.//w:p | .//w:tbl`); for paragraphs only the concatenated `w:t` text is
used. -/
inductive BodyElt
  | p (text : String)
  | tbl
deriving DecidableEq

/-- A run inside a footnote, at the XML level read by `_check_footnotes`. -/
structure FnRun where
  text : String := ""
  rPrPresent : Bool := false
  ascii : Option String := none
  hAnsi : Option String := none
  asciiTheme : Option String := none
  hAnsiTheme : Option String := none
  szHalf : Option ℤ := none
deriving DecidableEq

structure FnSpacing where
  before : Option String := none
  after : Option String := none
  line : Option String := none
  lineRule : Option String := none
deriving DecidableEq

structure FnPara where
  runs : List FnRun := []
  pPrPresent : Bool := false
  jc : Option String := none
  spacing : Option FnSpacing := none
deriving DecidableEq

/-- The paragraph text `_check_footnotes` derives from `w:t` elements. -/
def fnParaText (p : FnPara) : String :=
  pyStrip (String.join (p.runs.map FnRun.text))

structure Footnote where
  id : ℤ
  paras : List FnPara := []
deriving DecidableEq

/-- The in-memory document model handed to the analysis core. -/
structure Document where
  paragraphs : List Paragraph := []
  sections : List Sect := []
  tables : List Table := []
  styles : List StyleDef := []
  docDefaults : DocDefaults := {}
  bodyElements : List BodyElt := []
  footnotesPart : Option (List Footnote) := none
  /-- The name of the default paragraph style that `python-docx` substitutes
  when a paragraph has no explicit style (usually `"Normal"`). -/
  defaultParaStyleName : Option String := none
deriving DecidableEq

def lookupStyle (doc : Document) (name : String) : Option StyleDef :=
  doc.styles.find? (fun st => st.name = name)

end TezKontrol

namespace TezKontrol

/-! ## Hand-rolled matchers for the regular expressions in `utils.py` and
`checker.py`.  Each matcher consumes from a `List Char` and returns the
remaining input; the character classes involved are pairwise disjoint from
their followers, so greedy matching coincides with the backtracking regex
semantics. -/

/-- Consume a literal. -/
def litL : List Char → List Char → Option (List Char)
  | [], l => some l
  | _, [] => none
  | p :: ps, c :: cs => if c = p then litL ps cs else none

def lit (s : String) (l : List Char) : Option (List Char) := litL s.data l

/-- Consume a literal up to `re.IGNORECASE` simple case folding. -/
def litCIL : List Char → List Char → Option (List Char)
  | [], l => some l
  | _, [] => none
  | p :: ps, c :: cs => if reFoldChar c = reFoldChar p then litCIL ps cs else none

def litCI (s : String) (l : List Char) : Option (List Char) := litCIL s.data l

/-- Source: `\s+`. -/
def ws1 : List Char → Option (List Char)
  | [] => none
  | c :: cs => if isPyWs c then some (cs.dropWhile isPyWs) else none

/-- Source: `\s*`. -/
def wsS (l : List Char) : List Char := l.dropWhile isPyWs

/-- Source: `\d+`. -/
def digits1 : List Char → Option (List Char)
  | [] => none
  | c :: cs => if isDigitChar c then some (cs.dropWhile isDigitChar) else none

/-- Source: `(\d+)` with capture. -/
def digits1g : List Char → Option (List Char × List Char)
  | [] => none
  | c :: cs =>
      if isDigitChar c then some (c :: cs.takeWhile isDigitChar, cs.dropWhile isDigitChar)
      else none

/-- Source: `\d{4}`. -/
def digits4 (l : List Char) : Option (List Char) :=
  match l with
  | a :: b :: c :: d :: rest =>
      if isDigitChar a ∧ isDigitChar b ∧ isDigitChar c ∧ isDigitChar d then some rest
      else none
  | _ => none

/-- A single character of a class. -/
def chClass (pred : Char → Bool) : List Char → Option (List Char)
  | [] => none
  | c :: cs => if pred c then some cs else none

/-- An optional single character. -/
def optCh (ch : Char) (l : List Char) : List Char :=
  match l with
  | c :: cs => if c = ch then cs else l
  | [] => l

/-! ## `utils.py` predicates -/

def ordinalWords : List String :=
  ["BİRİNCİ", "İKİNCİ", "ÜÇÜNCÜ", "DÖRDÜNCÜ", "BEŞİNCİ", "ALTINCI",
   "YEDİNCİ", "SEKİZİNCİ", "DOKUZUNCU", "ONUNCU"]

/-- Source: `^(BİRİNCİ|…|ONUNCU)\s+BÖLÜM$` on the upper-cased text. -/
def matchOrdinalBolum (l : List Char) : Bool :=
  ordinalWords.any (fun w =>
    match lit w l with
    | none => false
    | some r =>
        match ws1 r with
        | none => false
        | some r2 => (lit "BÖLÜM" r2).any List.isEmpty)

/-- Full match of `words` separated by `\s+`, e.g. `^ETİK\s+KURUL\s+ONAYI$`. -/
def matchWordsSeq : List String → List Char → Bool
  | [], l => l.isEmpty
  | [w], l => (lit w l).any List.isEmpty
  | w :: ws, l =>
      match lit w l with
      | none => false
      | some r =>
          match ws1 r with
          | none => false
          | some r2 => matchWordsSeq ws r2

/-- Source: `utils.is_chapter_heading` (the canonical chapter-heading pattern list,
applied to the stripped, upper-cased text). -/
def is_chapter_heading (text : String) : Bool :=
  let u := (pyUpper (pyStrip text)).data
  matchOrdinalBolum u
  || matchWordsSeq ["GİRİŞ"] u
  || (matchWordsSeq ["SONUÇ"] u || matchWordsSeq ["SONUÇ", "VE", "ÖNERİLER"] u)
  || matchWordsSeq ["KAYNAKÇA"] u
  || matchWordsSeq ["ÖZET"] u
  || matchWordsSeq ["ABSTRACT"] u
  || (match lit "ÖN" u with
      | none => false
      | some r => (lit "SÖZ" (wsS r)).any List.isEmpty)
  || matchWordsSeq ["İÇİNDEKİLER"] u
  || matchWordsSeq ["TABLOLAR", "LİSTESİ"] u
  || matchWordsSeq ["ŞEKİLLER", "LİSTESİ"] u
  || matchWordsSeq ["SİMGELER", "VE", "KISALTMALAR", "LİSTESİ"] u
  || matchWordsSeq ["EKLER"] u
  || matchWordsSeq ["ETİK", "KURUL", "ONAYI"] u
  || matchWordsSeq ["BİLİMSEL", "ETİĞE", "UYGUNLUK"] u
  || matchWordsSeq ["TEZ", "ÖZGÜNLÜK", "SAYFASI"] u
  || matchWordsSeq ["KILAVUZA", "UYGUNLUK"] u
  || matchWordsSeq ["KABUL", "VE", "ONAY", "TUTANAĞI"] u

/-- Source: `utils.is_chapter_title_only`. -/
def is_chapter_title_only (text : String) : Bool :=
  matchOrdinalBolum (pyUpper (pyStrip text)).data

/-- One `\d+\.` group. -/
def numDot (l : List Char) : Option (List Char) :=
  (digits1 l).bind (lit ".")

/-- Source: `utils.is_numbered_heading`: `(is_heading, level)`. -/
def is_numbered_heading (text : String) : Bool × Option ℕ :=
  let l := (pyStrip text).data
  let upperAfterWs : List Char → Bool := fun r =>
    match ws1 r with
    | none => false
    | some r2 => (chClass isUpperTR r2).isSome
  match (numDot l).bind numDot |>.bind numDot with
  | some r => if upperAfterWs r then (true, some 3) else
      match (numDot l).bind numDot with
      | some r2 => if upperAfterWs r2 then (true, some 2) else
          match numDot l with
          | some r1 => if upperAfterWs r1 then (true, some 1) else (false, none)
          | none => (false, none)
      | none =>
          match numDot l with
          | some r1 => if upperAfterWs r1 then (true, some 1) else (false, none)
          | none => (false, none)
  | none =>
      match (numDot l).bind numDot with
      | some r2 => if upperAfterWs r2 then (true, some 2) else
          match numDot l with
          | some r1 => if upperAfterWs r1 then (true, some 1) else (false, none)
          | none => (false, none)
      | none =>
          match numDot l with
          | some r1 => if upperAfterWs r1 then (true, some 1) else (false, none)
          | none => (false, none)

/-- Source: `^<label>\s+\d+\.\s*\d+\s*:` (IGNORECASE), the caption shape shared by
`utils.is_table_caption` / `utils.is_figure_caption`. -/
def matchCaption (label : String) (text : String) : Bool :=
  let l := (pyStrip text).data
  match litCI label l with
  | none => false
  | some r =>
      match ws1 r with
      | none => false
      | some r2 =>
          match (digits1 r2).bind (lit ".") with
          | none => false
          | some r3 =>
              match digits1 (wsS r3) with
              | none => false
              | some r4 => (lit ":" (wsS r4)).isSome

def is_table_caption (text : String) : Bool := matchCaption "Tablo" text

def is_figure_caption (text : String) : Bool := matchCaption "Şekil" text

/-- Source: `^<label>\s+(\d+)\.\s*(\d+)\s*:` with captures, as used by
`_check_table_caption` / `_check_figure_caption`. -/
def captionNum (label : String) (text : String) : Option (String × String) :=
  let l := text.data
  match litCI label l with
  | none => none
  | some r =>
      match ws1 r with
      | none => none
      | some r2 =>
          match digits1g r2 with
          | none => none
          | some (g1, r3) =>
              match lit "." r3 with
              | none => none
              | some r4 =>
                  match digits1g (wsS r4) with
                  | none => none
                  | some (g2, r5) =>
                      if (lit ":" (wsS r5)).isSome then
                        some (String.mk g1, String.mk g2)
                      else none

/-- Source: `utils.is_uppercase_text`. -/
def conjunctionsUpper : List String :=
  ["ve", "veya", "ile", "ya", "da", "de", "ki", "mi", "mı", "mu", "mü",
   "and", "or", "with", "the", "in", "on", "at", "by"]

def is_uppercase_text (text : String) : Bool :=
  if text = "" then false
  else
    let words := pySplitWs text
    if words.isEmpty then false
    else words.all (fun word =>
      let clean := String.mk (word.data.filter isAlnumTR)
      if clean = "" then true
      else if (conjunctionsUpper.contains (pyLower clean)) then true
      else pyIsUpper clean)

/-- Source: `utils.is_title_case`. -/
def titleCaseExceptions : List String :=
  ["ve", "veya", "ya", "da", "de", "ile", "ya da", "and", "or", "the", "a", "an"]

def titleCaseWord (i : ℕ) (word : String) : Bool :=
  match word.data with
  | [] => true
  | c :: _ =>
      if ¬ isAlphaTR c then true
      else if i = 0 then isUpperTR c
      else if titleCaseExceptions.contains (pyLower word) then true
      else isUpperTR c

def is_title_case (text : String) : Bool :=
  ((pySplitWs text).enum.all fun wi => titleCaseWord wi.1 wi.2)

/- `utils.is_block_quote` is unused by the checker (it uses
`ThesisChecker._is_block_quote`); not modelled. -/

/-- Source: `utils.is_epigraph`: right-aligned paragraphs. -/
def is_epigraph (p : Paragraph) : Bool := p.pf.alignment = some 2

/-- Source: `utils.is_short_quote`. -/
def is_short_quote (text : String) : Bool :=
  let n := (pySplitWs (pyStrip text)).length
  0 < n ∧ n < 40

/-- Source: `utils.is_dialogue_or_transcript`:
`^([A-ZÖÇŞİĞÜ][a-zöçşiğü]*\s*\d*|A|K|E|Ö)\s*:` — the single-letter
alternatives are subsumed by the first branch. -/
def is_dialogue_or_transcript (text : String) : Bool :=
  if text = "" then false
  else
    match (pyStrip text).data with
    | [] => false
    | c :: cs =>
        if isUpperTR c then
          (lit ":" (wsS ((wsS (cs.dropWhile isLowerTR)).dropWhile isDigitChar))).isSome
        else false

/-- Source: `utils.is_list_item`. -/
def listMarkers : List Char := ['•', '-', '*', '+', '>']

def is_list_item (p : Paragraph) : Bool :=
  if p.numPr then true
  else
    let text := pyStrip (paraText p)
    match text.data with
    | [] => false
    | c :: _ =>
        if listMarkers.contains c then true
        else
          -- `^\d+[\.\)]\s` or `^[a-z][\.\)]\s` with IGNORECASE
          let dotParenWs : List Char → Bool := fun l =>
            match chClass (fun c => c = '.' ∨ c = ')') l with
            | none => false
            | some r => (chClass isPyWs r).isSome
          (match digits1 text.data with
           | some r => dotParenWs r
           | none => false)
          || (match chClass (fun c => 'a' ≤ reFoldChar c ∧ reFoldChar c ≤ 'z') text.data with
              | some r => dotParenWs r
              | none => false)

/-- Source: `utils.is_source_citation`. -/
def is_source_citation (text : String) : Bool :=
  if text = "" then false
  else
    let u := pyUpper (pyStrip text)
    strStartsWith u "KAYNAK:" || strStartsWith u "SOURCE:"

/-- Source: `utils.has_visible_borders`: `tblBorders` present and some side has a
`w:val` other than `nil`/`none`. -/
def has_visible_borders (t : Table) : Bool :=
  match t.tblBorders with
  | none => false
  | some sides =>
      sides.any (fun v =>
        match v with
        | some s => s ≠ "" ∧ s ≠ "nil" ∧ s ≠ "none"
        | none => false)

end TezKontrol

namespace TezKontrol

/-! ## `utils.StyleResolver`

The `while style:` loops walking `style.base_style` carry no depth bound in
the source.  `styleChainFuel` indexes the walk by fuel: a `none` result means
the loop is still running after that many iterations (so Python would still
be looping); `some none` means the chain ended without a value; `some (some v)`
means the walk returned `v`.  The pipeline uses `boundedChain` with fuel
`doc.styles.length + 1`, which agrees with the Python loop whenever the
reachable base chain terminates. -/

def styleChainFuel (doc : Document) (attrOf : StyleDef → Option α) :
    ℕ → Option StyleDef → Option (Option α)
  | _, none => some none
  | 0, some _ => none
  | n + 1, some st =>
      match attrOf st with
      | some v => some (some v)
      | none => styleChainFuel doc attrOf n (st.basedOn.bind (lookupStyle doc))

def boundedChain (doc : Document) (attrOf : StyleDef → Option α)
    (st : Option StyleDef) : Option α :=
  match styleChainFuel doc attrOf (doc.styles.length + 1) st with
  | some r => r
  | none => none

/-- Following one `base_style` link. -/
def baseStep (doc : Document) : Option StyleDef → Option StyleDef
  | none => none
  | some st => st.basedOn.bind (lookupStyle doc)

/-- The `while style:` attribute-chain walk of `StyleResolver` terminates on
a given start state: some amount of fuel suffices to complete it. -/
def chainWalkTerminates (doc : Document) (attrOf : StyleDef → Option α)
    (st : Option StyleDef) : Prop :=
  ∃ n, (styleChainFuel doc attrOf n st).isSome

/-- The paragraph's style object (`paragraph.style`; `python-docx` substitutes
the document's default paragraph style when no style is set). -/
def paraStyle (doc : Document) (p : Paragraph) : Option StyleDef :=
  (p.style.orElse (fun _ => doc.defaultParaStyleName)).bind (lookupStyle doc)

/-- Source: `StyleResolver._get_doc_defaults` font name
(`rFonts.get(ascii) or rFonts.get(hAnsi)`). -/
def docDefaultFontName (dd : DocDefaults) : Option String :=
  dd.rFontsAscii.orElse (fun _ => dd.rFontsHAnsi)

/-- Source: `StyleResolver._get_doc_defaults` font size (`int(sz)/2`). -/
def docDefaultFontSize (dd : DocDefaults) : Option ℚ :=
  dd.szHalfPoints.map (fun n => (n : ℚ) / 2)

/-- Source: `StyleResolver.get_effective_font_name`.  The direct `run.font.name`
and the `w:rFonts` `ascii` attribute coincide in the model (`Run.fontName`);
`hAnsi` and the theme fallback mirror the XML re-check. -/
def get_effective_font_name (doc : Document) (p : Paragraph) (r : Run) : String :=
  match r.fontName.orElse (fun _ => r.hAnsi) with
  | some f => f
  | none =>
      match r.theme with
      | some th => if strIn "minor" th then "Times New Roman" else "Tema (" ++ th ++ ")"
      | none =>
          match boundedChain doc StyleDef.fontName (paraStyle doc p) with
          | some n => n
          | none => (docDefaultFontName doc.docDefaults).getD "Calibri"

/-- Source: `StyleResolver.get_effective_font_size` (`Run.size` covers both the
direct `run.font.size` and the XML `w:sz` re-check). -/
def get_effective_font_size (doc : Document) (p : Paragraph) (r : Run) : ℚ :=
  match r.size with
  | some s => s
  | none =>
      match boundedChain doc StyleDef.fontSize (paraStyle doc p) with
      | some s => s
      | none => (docDefaultFontSize doc.docDefaults).getD 11

/-- Source: `StyleResolver.get_effective_paragraph_attribute`, generic in the
attribute: direct formatting, then the style chain, then the document
default for that attribute (absent dictionary keys give `none`). -/
def get_effective_paragraph_attribute (doc : Document) (p : Paragraph)
    (direct : ParaFormat → Option α) (dd : Option α) : Option α :=
  match direct p.pf with
  | some v => some v
  | none =>
      match boundedChain doc (fun st => direct st.pf) (paraStyle doc p) with
      | some v => some v
      | none => dd

/-- A resolved spacing attribute: a `Length` from direct/style formatting, or
the raw integer `_get_doc_defaults` stores (which has no `.pt` and is treated
as `0.0` by `_check_paragraph_spacing`). -/
inductive SpacingVal
  | len (l : Length)
  | raw (n : ℤ)
deriving DecidableEq

def resolveSpaceBefore (doc : Document) (p : Paragraph) : Option SpacingVal :=
  get_effective_paragraph_attribute doc p
    (fun f => f.space_before.map SpacingVal.len)
    (doc.docDefaults.spacingBefore.map SpacingVal.raw)

def resolveSpaceAfter (doc : Document) (p : Paragraph) : Option SpacingVal :=
  get_effective_paragraph_attribute doc p
    (fun f => f.space_after.map SpacingVal.len)
    (doc.docDefaults.spacingAfter.map SpacingVal.raw)

def resolveFirstLineIndent (doc : Document) (p : Paragraph) : Option Length :=
  get_effective_paragraph_attribute doc p ParaFormat.first_line_indent none

def resolveLeftIndent (doc : Document) (p : Paragraph) : Option Length :=
  get_effective_paragraph_attribute doc p ParaFormat.left_indent none

def resolveRightIndent (doc : Document) (p : Paragraph) : Option Length :=
  get_effective_paragraph_attribute doc p ParaFormat.right_indent none

def resolveLineSpacing (doc : Document) (p : Paragraph) : Option LSVal :=
  get_effective_paragraph_attribute doc p ParaFormat.line_spacing
    (doc.docDefaults.spacingLine.map LSVal.rawLine)

def resolveLineSpacingRule (doc : Document) (p : Paragraph) : Option LSRule :=
  get_effective_paragraph_attribute doc p ParaFormat.line_spacing_rule
    (doc.docDefaults.spacingLineRule.map LSRule.raw)

/-- Source: `StyleResolver.get_effective_line_spacing`: named rules first, then
a float multiplier, then an exact/at-least point value divided by the fixed
`12.0` reference, else `1.0`.  The raw integer document default matches
neither `isinstance(val, float)` nor `hasattr(val, 'pt')` and falls through
to `1.0`. -/
def get_effective_line_spacing (doc : Document) (p : Paragraph) : ℚ :=
  let rule := resolveLineSpacingRule doc p
  let val := resolveLineSpacing doc p
  if rule = some (.wd .onePointFive) then 3/2
  else if rule = some (.wd .double) then 2
  else if rule = some (.wd .single) then 1
  else
    match val with
    | some (.mult q) => q
    | some (.len l) => pyRound1 (Length.pt l / 12)
    | _ => 1

/-- Modelled from the spec: `StyleResolver.get_effective_font_bold` is called
by `checker._is_paragraph_bold` (checker.py line 1090) but is absent from
`src/utils.py`; per spec §4.1 a style-imposed bold resolves along the
paragraph's assigned style chain. -/
def get_effective_font_bold (doc : Document) (p : Paragraph) : Option Bool :=
  boundedChain doc StyleDef.fontBold (paraStyle doc p)

/-- Modelled from the spec: `StyleResolver.is_run_bold` is called by
`checker._is_paragraph_bold` (checker.py line 1106) but is absent from
`src/utils.py`; per spec §4.1 ("Manuel + Karakter Stili + Paragraf Stili")
it resolves direct run bold, then the character-style chain, then the
paragraph style chain. -/
def is_run_bold (doc : Document) (r : Run) (p : Paragraph) : Bool :=
  ((r.bold.orElse
      (fun _ => boundedChain doc StyleDef.fontBold (r.charStyle.bind (lookupStyle doc)))).orElse
    (fun _ => get_effective_font_bold doc p)).getD false

end TezKontrol

namespace TezKontrol

/-! ## `checker.py`: analysis state

`CoreState` holds exactly the `ThesisChecker` attributes that `_reset`
re-initialises (checker.py lines 107-119); `CheckerState` adds the two
attributes `_reset` does not touch (`last_chapter_para_idx`,
`in_english_abstract`).  Python sets/dicts become insertion-ordered
duplicate-free lists, which preserves the membership tests and the
iteration orders the report depends on. -/

structure CoreState where
  errors : List FormatError := []
  sectionsFound : List String := []
  abstractText : String := ""
  coverEndedAt : ℕ := 0
  totalChecks : ℕ := 0
  passedChecks : ℕ := 0
  tocHeadings : List (String × ℕ) := []
  tablesFound : List String := []
  figuresFound : List String := []
  inReferences : Bool := false
  headingsFound : List String := []
deriving DecidableEq

structure CheckerState where
  core : CoreState := {}
  lastChapterParaIdx : ℤ := -1
  inEnglishAbstract : Bool := false
deriving DecidableEq

/-- Source: `ThesisChecker.__init__` analysis-state attributes. -/
def initialState : CheckerState := {}

/-- Source: `ThesisChecker._reset`: every `CoreState` field is re-initialised;
`last_chapter_para_idx` and `in_english_abstract` are left as they are. -/
def reset (s : CheckerState) : CheckerState :=
  { core := {},
    lastChapterParaIdx := s.lastChapterParaIdx,
    inEnglishAbstract := s.inEnglishAbstract }

/-- Python `set.add` as insertion-ordered duplicate-free append. -/
def dedupAppend [DecidableEq α] (l : List α) (x : α) : List α :=
  if l.contains x then l else l ++ [x]

/-- Python `dict[k] = v` on an insertion-ordered association list. -/
def dictSet (l : List (String × ℕ)) (k : String) (v : ℕ) : List (String × ℕ) :=
  if l.any (fun p => p.1 = k) then l.map (fun p => if p.1 = k then (k, v) else p)
  else l ++ [(k, v)]

/-! ## `checker.py`: cover-page patterns -/

/-- Search for a matcher at any position (Python `re.search`). -/
def searchP (m : List Char → Option (List Char)) : List Char → Bool
  | [] => (m []).isSome
  | c :: rest => (m (c :: rest)).isSome || searchP m rest

/-- The suffix after the first occurrence of `needle`. -/
def afterFirst (needle : List Char) : List Char → Option (List Char)
  | [] => if needle.isEmpty then some [] else none
  | c :: rest =>
      if needle.isPrefixOf (c :: rest) then some ((c :: rest).drop needle.length)
      else afterFirst needle rest

def monthsUpper : List String :=
  ["OCAK", "ŞUBAT", "MART", "NİSAN", "MAYIS", "HAZİRAN", "TEMMUZ",
   "AĞUSTOS", "EYLÜL", "EKİM", "KASIM", "ARALIK"]

/-- Source: `checker.COVER_PATTERNS`, each applied with `re.search` to the
stripped upper-cased text. -/
def coverPatternHit (u : String) : Bool :=
  let l := u.data
  -- ^T\.?C\.?$
  ((lit "T" l).bind (fun r => lit "C" (optCh '.' r))
      |>.map (fun r => (optCh '.' r).isEmpty)).getD false
  -- ERZİNCAN.*ÜNİVERSİTESİ
  || ((afterFirst "ERZİNCAN".data l).map
        (fun r => containsSub "ÜNİVERSİTESİ".data r)).getD false
  || strIn "SOSYAL BİLİMLER ENSTİTÜSÜ" u
  -- ANA\s*BİLİM\s*DALI
  || searchP (fun r => (lit "ANA" r).bind (fun r => (lit "BİLİM" (wsS r)).bind
        (fun r => lit "DALI" (wsS r)))) l
  -- BİLİM\s*DALI
  || searchP (fun r => (lit "BİLİM" r).bind (fun r => lit "DALI" (wsS r))) l
  || strIn "YÜKSEK LİSANS" u
  || strIn "DOKTORA" u
  -- TEZİ?$
  || strEndsWith u "TEZ" || strEndsWith u "TEZİ"
  || strIn "HAZIRLAYAN" u
  || strIn "DANIŞMAN" u
  -- ^\d{4},?\s*ERZİNCAN$
  || ((digits4 l).bind (fun r => lit "ERZİNCAN" (wsS (optCh ',' r)))
        |>.map List.isEmpty).getD false
  -- ^(OCAK|…|ARALIK)\s+\d{4}
  || monthsUpper.any (fun mth =>
        ((lit mth l).bind ws1 |>.bind digits4).isSome)

/-! ## `checker.py`: pre-analysis passes -/

/-- Source: `ThesisChecker._find_cover_end`. -/
def findCoverEndGo : List (ℕ × Paragraph) → ℕ
  | [] => 0
  | (i, p) :: rest =>
      let text := pyUpper (pyStrip (paraText p))
      if ["BİLİMSEL ETİĞE", "ÖNSÖZ", "ÖN SÖZ", "ÖZET"].any (fun x => strIn x text)
      then i
      else if 50 < i then 20
      else findCoverEndGo rest

def find_cover_end (doc : Document) : ℕ := findCoverEndGo doc.paragraphs.enum

/-- Source: `ThesisChecker._is_cover_or_skip`. -/
def is_cover_or_skip (coverEndedAt : ℕ) (index : ℕ) (text : String) : Bool :=
  index < coverEndedAt || coverPatternHit (pyUpper (pyStrip text))

/-- Greedy `(?:\.\d+)*` loop of the TOC-line numeral matcher.  Fuel-indexed
for structural recursion; each iteration consumes at least two characters,
so fuel `r.length` never runs out. -/
def tocNumLoop : ℕ → List Char → List Char → List Char × List Char
  | 0, g, r => (g, r)
  | fuel + 1, g, r =>
      match r with
      | '.' :: c :: cs =>
          if isDigitChar c then
            tocNumLoop fuel (g ++ '.' :: c :: cs.takeWhile isDigitChar)
              (cs.dropWhile isDigitChar)
          else (g, r)
      | _ => (g, r)

/-- Matcher for the TOC-line numeral `(\d+(?:\.\d+)*\.?)`, returning the
captured numeral and the rest. -/
def tocNumGroup (l : List Char) : Option (List Char × List Char) :=
  match digits1g l with
  | none => none
  | some (g, r) =>
      let gr := tocNumLoop r.length g r
      -- optional trailing `\.?`
      match gr.2 with
      | '.' :: cs => some (gr.1 ++ ['.'], cs)
      | _ => some gr

/-- End-anchored dot-leader page-number suffix `\s+\.+\s*\d+$`. -/
def dotLeaderEnd (l : List Char) : Bool :=
  match ws1 l with
  | none => false
  | some r =>
      match r with
      | '.' :: cs =>
          let r2 := cs.dropWhile (fun c => c = '.')
          match digits1 (wsS r2) with
          | some rest => rest.isEmpty
          | none => false
      | _ => false

/-- The lazy group `(.+?)` before the optional dot-leader suffix: the
shortest nonempty prefix whose remainder is empty or a dot-leader suffix. -/
def tocTitleSplit : List Char → List Char → List Char
  | taken, [] => taken.reverse
  | taken, c :: rest =>
      if ¬ taken.isEmpty ∧ dotLeaderEnd (c :: rest) then taken.reverse
      else tocTitleSplit (c :: taken) rest

/-- Full TOC-entry match `^(\d+(?:\.\d+)*\.?)\s+(.+?)(?:\s+\.+\s*\d+)?$`,
returning the numeral and the (unstripped) title. -/
def tocLineMatch (text : String) : Option (String × String) :=
  match tocNumGroup text.data with
  | none => none
  | some (num, r) =>
      match ws1 r with
      | none => none
      | some rest =>
          if rest.isEmpty then none
          else some (String.mk num, String.mk (tocTitleSplit [] rest))

/-- Source: `ThesisChecker._parse_toc`. -/
def parseTocGo (inToc : Bool) (c : CoreState) : List Paragraph → CoreState
  | [] => c
  | p :: rest =>
      let text := pyStrip (paraText p)
      let textU := pyUpper text
      if strIn "İÇİNDEKİLER" textU ∧ pyLen text < 30 then parseTocGo true c rest
      else if inToc then
        if (["TABLOLAR LİSTESİ", "ŞEKİLLER LİSTESİ", "GİRİŞ"].any
              (fun x => strIn x textU)) ∧ pyLen text < 30 then c
        else
          match tocLineMatch text with
          | some (num, title) =>
              let title := pyStrip title
              let level := (num.data.filter (fun ch => ch = '.')).length
              parseTocGo inToc
                { c with tocHeadings := dictSet c.tocHeadings (pyUpper title) level } rest
          | none => parseTocGo inToc c rest
      else parseTocGo inToc c rest

def parse_toc (doc : Document) (c : CoreState) : CoreState :=
  parseTocGo false c doc.paragraphs

/-- Source: the `required` mapping in `ThesisChecker._find_sections`. -/
def requiredSectionPairs : List (String × String) :=
  [("ÖZET", "Özet"), ("ABSTRACT", "Abstract"), ("GİRİŞ", "Giriş"),
   ("SONUÇ", "Sonuç"), ("KAYNAKÇA", "Kaynakça"), ("İÇİNDEKİLER", "İçindekiler")]

/-- Source: `ThesisChecker._find_sections`.  The abstract-collection block
(checker.py lines 202-212) sits after the `continue` inside
`if is_section_heading:` and is unreachable, so `abstract_paragraphs` stays
empty and `abstract_text` is the join of the empty list; the local
`in_abstract`/`ozet_found` flags are threaded but never observed.  Returns
the updated state and whether `"Abstract"` ended up in `sections_found`
(which is what sets `in_english_abstract`). -/
def find_sections (doc : Document) (c : CoreState) : CoreState × Bool :=
  let step := fun (acc : List String × Bool × Bool) (p : Paragraph) =>
    let text := pyStrip (paraText p)
    let textU := pyUpper text
    requiredSectionPairs.foldl
      (fun (a : List String × Bool × Bool) kv =>
        if strIn kv.1 textU ∧ pyLen text < 50 then
          let sf := dedupAppend a.1 kv.2
          if kv.1 = "ÖZET" ∧ ¬ strIn "ABSTRACT" textU then (sf, true, true)
          else if a.2.2 ∧ kv.1 ≠ "ÖZET" then (sf, false, a.2.2)
          else (sf, a.2.1, a.2.2)
        else a)
      acc
  let sf := (doc.paragraphs.foldl step (c.sectionsFound, false, false)).1
  ({ c with sectionsFound := sf, abstractText := strJoin " " [] },
   sf.contains "Abstract")

/-- Source: `ThesisChecker._check_abstract`. -/
def check_abstract (cfg : ThesisConfig) (c : CoreState) : CoreState :=
  if c.abstractText = "" then c
  else
    let wc := count_words c.abstractText
    let c := { c with totalChecks := c.totalChecks + 1 }
    if wc < cfg.abstract_min_words then
      { c with errors := c.errors ++ [{
          category := .ABSTRACT,
          message := "Özet çok kısa: " ++ toString wc ++ " kelime (minimum "
            ++ toString cfg.abstract_min_words ++ ")",
          location := "Özet",
          expected := "En az " ++ toString cfg.abstract_min_words ++ " kelime",
          found := toString wc ++ " kelime",
          snippet := get_text_snippet c.abstractText 60 }] }
    else if cfg.abstract_max_words < wc then
      { c with errors := c.errors ++ [{
          category := .ABSTRACT,
          message := "Özet çok uzun: " ++ toString wc ++ " kelime (maksimum "
            ++ toString cfg.abstract_max_words ++ ")",
          location := "Özet",
          expected := "En fazla " ++ toString cfg.abstract_max_words ++ " kelime",
          found := toString wc ++ " kelime",
          snippet := get_text_snippet c.abstractText 60 }] }
    else { c with passedChecks := c.passedChecks + 1 }

/-- Source: `ThesisChecker._check_margins`. -/
def check_margins (cfg : ThesisConfig) (doc : Document) (c : CoreState) : CoreState :=
  match doc.sections with
  | [] => c
  | sec :: _ =>
      let margins : List (Option Length × String × ℚ) :=
        [(sec.top_margin, "Üst", cfg.margin_top),
         (sec.bottom_margin, "Alt", cfg.margin_bottom),
         (sec.left_margin, "Sol", cfg.margin_left),
         (sec.right_margin, "Sağ", cfg.margin_right)]
      let (c, issues) := margins.foldl
        (fun (acc : CoreState × List String) m =>
          let (c, issues) := acc
          let c := { c with totalChecks := c.totalChecks + 1 }
          match m.1 with
          | none => ({ c with passedChecks := c.passedChecks + 1 }, issues)
          | some l =>
              let actual := Length.cm l
              if actual ≠ 0 ∧ cfg.margin_tolerance_cm < |actual - m.2.2| then
                (c, issues ++ [m.2.1 ++ ": " ++ fmtFixed1 actual
                  ++ " cm (olması gereken: " ++ pyStrFloat m.2.2 ++ " cm)"])
              else ({ c with passedChecks := c.passedChecks + 1 }, issues))
        (c, [])
      if issues.isEmpty then c
      else
        { c with errors := c.errors ++ [{
            category := .MARGIN,
            message := strJoin "; " issues,
            location := "Sayfa Düzeni",
            expected := pyStrFloat cfg.margin_top ++ " cm",
            found := "Farklı değerler",
            snippet := "Sayfa kenar boşlukları ayarları" }] }

end TezKontrol

namespace TezKontrol

/-! ## `checker.py`: individual rule checks

Each `_check_*` helper that mutates `self.total_checks`/`self.passed_checks`
and returns an issue dict becomes a function `CoreState → CoreState × …`. -/

/-- An issue dict as produced by the `_check_*` helpers. -/
structure Issue where
  category : ErrorCategory
  message : String
  expected : String := ""
  found : String := ""
deriving DecidableEq

/-- Turning an issue dict into a `FormatError` at a location (the
`errors.append(FormatError(...))` pattern of `_check_paragraphs`). -/
def issueToError (iss : Issue) (location snippet : String) : FormatError :=
  { category := iss.category, message := iss.message, location := location,
    expected := iss.expected, found := iss.found, snippet := snippet }

def bumpTotal (c : CoreState) : CoreState :=
  { c with totalChecks := c.totalChecks + 1 }

def bumpPassed (c : CoreState) : CoreState :=
  { c with passedChecks := c.passedChecks + 1 }

def addError (c : CoreState) (e : FormatError) : CoreState :=
  { c with errors := c.errors ++ [e] }

/-- Source: `ThesisChecker._check_font`. -/
def fontSkipList : List String :=
  ["Symbol", "Wingdings", "Cambria Math", "Webdings", "MS Mincho"]

def check_font (cfg : ThesisConfig) (doc : Document) (p : Paragraph)
    (c : CoreState) : CoreState × Option Issue :=
  let c := bumpTotal c
  let expected := cfg.font_name
  let wrongFonts := p.runs.foldl
    (fun (w : List String) r =>
      if pyStrip r.text = "" then w
      else
        let font := get_effective_font_name doc p r
        if font ≠ "" ∧ font ≠ expected ∧ ¬ fontSkipList.contains font then
          dedupAppend w font
        else w)
    []
  if wrongFonts.isEmpty then (bumpPassed c, none)
  else
    let fontsStr := strJoin ", " wrongFonts
    (c, some { category := .FONT, message := "Yanlış yazı tipi: " ++ fontsStr,
               expected := expected, found := fontsStr })

/-- Source: `ThesisChecker._check_size`. -/
def check_size (cfg : ThesisConfig) (doc : Document) (p : Paragraph)
    (expectedPt : ℤ) (context : String) (c : CoreState) :
    CoreState × Option Issue :=
  let c := bumpTotal c
  let tolerance := cfg.font_size_tolerance_pt
  let wrongSizes := p.runs.foldl
    (fun (w : List ℚ) r =>
      if pyStrip r.text = "" then w
      else
        let size := get_effective_font_size doc p r
        if size ≠ 0 ∧ tolerance < |size - (expectedPt : ℚ)| then dedupAppend w size
        else w)
    []
  if wrongSizes.isEmpty then (bumpPassed c, none)
  else
    let sizesStr := strJoin ", "
      ((pySorted wrongSizes).map (fun s => fmtFixed1 s ++ "pt"))
    (c, some { category := .FONT_SIZE,
               message := context ++ " " ++ sizesStr ++ " (olması gereken: "
                 ++ toString expectedPt ++ "pt)",
               expected := toString expectedPt ++ "pt", found := sizesStr })

/-- Source: the `alignment_names` mapping in `ThesisChecker._check_alignment`. -/
def alignmentName (a : ℕ) : String :=
  if a = 0 then "Sola yaslı"
  else if a = 1 then "Ortalı"
  else if a = 2 then "Sağa yaslı"
  else if a = 3 then "İki yana yaslı"
  else toString a

/-- Source: `ThesisChecker._check_alignment` (direct `paragraph_format.alignment`
only; `None` passes). -/
def check_alignment (p : Paragraph) (expected : ℕ) (message : String)
    (c : CoreState) : CoreState × Option Issue :=
  let c := bumpTotal c
  match p.pf.alignment with
  | none => (bumpPassed c, none)
  | some actual =>
      if actual ≠ expected then
        (c, some { category := .PARAGRAPH, message := message,
                   expected := alignmentName expected, found := alignmentName actual })
      else (bumpPassed c, none)

/-- Source: `ThesisChecker._is_paragraph_bold`: style-imposed bold, else the
fraction of non-whitespace run characters that resolve bold must exceed 80%. -/
def is_paragraph_bold (doc : Document) (p : Paragraph) : Bool :=
  if get_effective_font_bold doc p = some true then true
  else
    let counts := p.runs.foldl
      (fun (bc : ℕ × ℕ) r =>
        let clean := pyStrip r.text
        if clean = "" then bc
        else
          let n := pyLen clean
          (if is_run_bold doc r p then bc.1 + n else bc.1, bc.2 + n))
      (0, 0)
    if counts.2 = 0 then false
    else (4 : ℚ) / 5 < (counts.1 : ℚ) / (counts.2 : ℚ)

/-- Source: `ThesisChecker._check_table_caption`.  On the match branch only
`passed_checks` is incremented; `total_checks` is touched only on the
mismatch branch. -/
def check_table_caption (text location : String) (c : CoreState) : CoreState :=
  match captionNum "Tablo" text with
  | some chn =>
      bumpPassed { c with tablesFound := c.tablesFound ++ [chn.1 ++ "." ++ chn.2] }
  | none =>
      addError (bumpTotal c)
        { category := .NUMBERING,
          message := "Tablo numaralandırma formatı yanlış",
          location := location,
          expected := "Tablo X.Y: Başlık",
          found := pyTake text 40,
          snippet := get_text_snippet text 60 }

/-- Source: `ThesisChecker._check_figure_caption` (same counter asymmetry as
the table-caption check). -/
def check_figure_caption (text location : String) (c : CoreState) : CoreState :=
  match captionNum "Şekil" text with
  | some chn =>
      bumpPassed { c with figuresFound := c.figuresFound ++ [chn.1 ++ "." ++ chn.2] }
  | none =>
      addError (bumpTotal c)
        { category := .NUMBERING,
          message := "Şekil numaralandırma formatı yanlış",
          location := location,
          expected := "Şekil X.Y: Başlık",
          found := pyTake text 40,
          snippet := get_text_snippet text 60 }

/-- Source: `ThesisChecker._check_caption_format`. -/
def check_caption_format (cfg : ThesisConfig) (doc : Document) (p : Paragraph)
    (captionType : String) (c : CoreState) : CoreState × List Issue :=
  let (c, fontIssue) := check_font cfg doc p c
  let expectedSize := if captionType = "Tablo" then cfg.font_size_table_caption
    else cfg.font_size_figure_caption
  let (c, sizeIssue) := check_size cfg doc p expectedSize (captionType ++ " başlığı") c
  (c, fontIssue.toList ++ sizeIssue.toList)

/-- Source: `ThesisChecker._check_chapter_heading_format`.  The returned flag
records the `self.last_chapter_para_idx = para_idx` assignment (the call
site always passes a real index, so `para_idx != -1` holds). -/
def check_chapter_heading_format (cfg : ThesisConfig) (doc : Document)
    (p : Paragraph) (text : String) (c : CoreState) :
    CoreState × List Issue × Bool :=
  let (c, fontIssue) := check_font cfg doc p c
  let (c, sizeIssue) :=
    check_size cfg doc p cfg.font_size_chapter_heading "Bölüm başlığı" c
  let c := bumpTotal c
  let (c, boldIssue) :=
    if ¬ is_paragraph_bold doc p then
      (c, [({ category := .HEADING, message := "Bölüm başlığı koyu olmalı",
              expected := "Koyu", found := "Normal" } : Issue)])
    else (bumpPassed c, [])
  let setLast := is_chapter_title_only text
  let c := bumpTotal c
  let (c, upperIssue) :=
    if ¬ is_uppercase_text text then
      (c, [({ category := .HEADING,
              message := "Bölüm başlığı tamamı büyük harf olmalı",
              expected := "BÜYÜK HARF", found := pyTake text 30 } : Issue)])
    else (bumpPassed c, [])
  let (c, alignIssue) := check_alignment p 1 "Bölüm başlığı ortalı olmalı" c
  (c, fontIssue.toList ++ sizeIssue.toList ++ boldIssue ++ upperIssue
      ++ alignIssue.toList, setLast)

/-- Source: `ThesisChecker._check_subheading_format`.  The title-case check
increments `total_checks` only on failure and `passed_checks` only on
success. -/
def check_subheading_format (cfg : ThesisConfig) (doc : Document)
    (p : Paragraph) (text : String) (c : CoreState) : CoreState × List Issue :=
  let (c, fontIssue) := check_font cfg doc p c
  let (c, sizeIssue) := check_size cfg doc p cfg.font_size_subheading "Alt başlık" c
  let c := bumpTotal c
  let (c, boldIssue) :=
    if ¬ is_paragraph_bold doc p then
      (c, [({ category := .HEADING, message := "Alt başlık koyu olmalı",
              expected := "Koyu", found := "Normal" } : Issue)])
    else (bumpPassed c, [])
  let (c, titleIssue) :=
    if ¬ is_title_case text then
      (bumpTotal c,
       [({ category := .HEADING,
           message := "Alt başlık her kelimesi büyük harfle başlamalı",
           expected := "Her Kelime Büyük", found := pyTake text 30 } : Issue)])
    else (bumpPassed c, [])
  (c, fontIssue.toList ++ sizeIssue.toList ++ boldIssue ++ titleIssue)

/-- The backward scan for blank paragraphs in
`ThesisChecker._check_chapter_start_rules` (`for j in range(1, 6)` with a
break on the first non-blank paragraph; indices before the document start
are skipped). -/
def emptyCountBack (doc : Document) (paraIdx : ℕ) : ℕ :=
  let rec go : List ℕ → ℕ → ℕ
    | [], acc => acc
    | j :: js, acc =>
        if j ≤ paraIdx then
          match doc.paragraphs.get? (paraIdx - j) with
          | some prev =>
              if pyStrip (paraText prev) = "" then go js (acc + 1) else acc
          | none => go js acc
        else go js acc
  go [1, 2, 3, 4, 5] 0

/-- Source: `ThesisChecker._check_chapter_start_rules`. -/
def check_chapter_start_rules (doc : Document) (paraIdx : ℕ) (location : String)
    (c : CoreState) : CoreState :=
  let c := bumpTotal c
  let p := (doc.paragraphs.get? paraIdx).getD {}
  let sb := match p.pf.space_before with
    | some l => Length.pt l
    | none => 0
  if sb < 100 then
    let emptyCount := emptyCountBack doc paraIdx
    if emptyCount < 4 ∧ sb < 80 then
      addError c
        { category := .MARGIN,
          message := "Bölüm başlığı öncesi 4 satır boşluk veya 7cm üst boşluk kuralı ihlali",
          location := location,
          expected := "7cm üst boşluk / 4 satır boş",
          found := toString emptyCount ++ " boş satır, " ++ toString (pyIntTrunc sb)
            ++ "nk boşluk" }
    else bumpPassed c
  else bumpPassed c

/-- Source: `ThesisChecker._is_block_quote` (resolver-based; a missing
resolved indent counts as `0.0`). -/
def is_block_quote_c (doc : Document) (p : Paragraph) : Bool :=
  let left := ((resolveLeftIndent doc p).map Length.cm).getD 0
  let right := ((resolveRightIndent doc p).map Length.cm).getD 0
  1 < left ∧ 1 < right

/-- Source: `ThesisChecker._check_block_quote_format`. -/
def check_block_quote_format (cfg : ThesisConfig) (doc : Document)
    (p : Paragraph) (c : CoreState) : CoreState × List Issue :=
  let (c, sizeIssue) := check_size cfg doc p cfg.font_size_block_quote "Blok alıntı" c
  let hasItalic := (p.runs.filter (fun r => pyStrip r.text ≠ "")).all
    (fun r => r.italic = some true)
  let c := bumpTotal c
  let (c, italicIssue) :=
    if ¬ hasItalic then
      (c, [({ category := .PARAGRAPH, message := "Blok alıntı italik olmalıdır",
              expected := "İtalik", found := "Normal" } : Issue)])
    else (bumpPassed c, [])
  let c := bumpTotal c
  let actualLs := get_effective_line_spacing doc p
  let (c, lsIssue) :=
    if 3/20 < |actualLs - 1| then
      (c, [({ category := .PARAGRAPH,
              message := "Blok alıntı satır aralığı 1.0 (tek) olmalı",
              expected := "1.0", found := fmtFixed1 actualLs } : Issue)])
    else (bumpPassed c, [])
  let (c, alignIssue) := check_alignment p 3 "Blok alıntı iki yana yaslı olmalı" c
  (c, sizeIssue.toList ++ italicIssue ++ lsIssue ++ alignIssue.toList)

/-- Source: `ThesisChecker._check_line_spacing` (with the dialogue / source /
list-item bypasses). -/
def check_line_spacing (cfg : ThesisConfig) (doc : Document) (p : Paragraph)
    (c : CoreState) : CoreState × Option Issue :=
  let c := bumpTotal c
  let text := pyStrip (paraText p)
  if is_dialogue_or_transcript text || is_source_citation text || is_list_item p then
    (bumpPassed c, none)
  else
    let actual := get_effective_line_spacing doc p
    let expected := cfg.line_spacing_body
    if expected = 3/2 ∧ 5/4 ≤ actual ∧ actual ≤ 33/20 then (bumpPassed c, none)
    else if expected = 1 ∧ 9/10 ≤ actual ∧ actual ≤ 23/20 then (bumpPassed c, none)
    else if 3/20 < |actual - expected| then
      (c, some { category := .LINE_SPACING,
                 message := "Satır aralığı " ++ fmtFixed1 actual
                   ++ " (olması gereken: " ++ pyStrFloat expected ++ ")",
                 expected := pyStrFloat expected, found := fmtFixed1 actual })
    else (bumpPassed c, none)

/-- Source: `ThesisChecker._check_paragraph_indent`. -/
def check_paragraph_indent (cfg : ThesisConfig) (doc : Document) (p : Paragraph)
    (c : CoreState) : CoreState × Option Issue :=
  let c := bumpTotal c
  let actualCm := match resolveFirstLineIndent doc p with
    | none => 0
    | some l => Length.cm l
  let expectedCm := cfg.paragraph_first_line_indent
  if 1/5 < |actualCm - expectedCm| then
    (c, some { category := .PARAGRAPH,
               message := "Paragraf girintisi " ++ fmtFixed2 actualCm
                 ++ "cm (olması gereken: " ++ pyStrFloat expectedCm ++ "cm)",
               expected := pyStrFloat expectedCm ++ "cm",
               found := fmtFixed2 actualCm ++ "cm" })
  else (bumpPassed c, none)

/-- Source: `ThesisChecker._check_paragraph_spacing`.  A raw-integer document
default has no `.pt` and counts as `0.0`. -/
def check_paragraph_spacing (cfg : ThesisConfig) (doc : Document) (p : Paragraph)
    (c : CoreState) : CoreState × Option Issue :=
  let c := bumpTotal c
  let before := match resolveSpaceBefore doc p with
    | some (.len l) => Length.pt l
    | _ => 0
  let after := match resolveSpaceAfter doc p with
    | some (.len l) => Length.pt l
    | _ => 0
  let eb := cfg.paragraph_spacing_before
  let ea := cfg.paragraph_spacing_after
  if 11/10 < |before - (eb : ℚ)| ∨ 11/10 < |after - (ea : ℚ)| then
    (c, some { category := .PARAGRAPH,
               message := "Paragraf aralığı " ++ toString (pyIntTrunc before)
                 ++ "nk-" ++ toString (pyIntTrunc after) ++ "nk (olması gereken: "
                 ++ toString eb ++ "nk-" ++ toString ea ++ "nk)",
               expected := toString eb ++ "nk-" ++ toString ea ++ "nk",
               found := toString (pyIntTrunc before) ++ "nk-"
                 ++ toString (pyIntTrunc after) ++ "nk" })
  else (bumpPassed c, none)

/-- Source: `ThesisChecker._check_normal_paragraph_format`: size, alignment,
line spacing, first-line indent, before/after spacing. -/
def check_normal_paragraph_format (cfg : ThesisConfig) (doc : Document)
    (p : Paragraph) (c : CoreState) : CoreState × List Issue :=
  let (c, sizeIssue) := check_size cfg doc p cfg.font_size_body "Metin" c
  let (c, alignIssue) := check_alignment p 3 "Metin iki yana yaslı olmalı" c
  let (c, lsIssue) := check_line_spacing cfg doc p c
  let (c, indentIssue) := check_paragraph_indent cfg doc p c
  let (c, spacingIssue) := check_paragraph_spacing cfg doc p c
  (c, sizeIssue.toList ++ alignIssue.toList ++ lsIssue.toList
      ++ indentIssue.toList ++ spacingIssue.toList)

/-- Source: `ThesisChecker._check_epigraph_format` (11pt literal, italic). -/
def check_epigraph_format (cfg : ThesisConfig) (doc : Document) (p : Paragraph)
    (c : CoreState) : CoreState × List Issue :=
  let (c, sizeIssue) := check_size cfg doc p 11 "Epigraf" c
  let c := bumpTotal c
  let allItalic := (p.runs.filter (fun r => pyStrip r.text ≠ "")).all
    (fun r => r.italic = some true)
  let (c, italicIssue) :=
    if ¬ allItalic then
      (c, [({ category := .PARAGRAPH, message := "Epigraf italik olmalı",
              expected := "İtalik" } : Issue)])
    else (bumpPassed c, [])
  (c, sizeIssue.toList ++ italicIssue)

end TezKontrol

namespace TezKontrol

/-! ## `checker.py`: the classification pass (`_check_paragraphs`)

The loop-local flags `in_toc_list` / `in_front_matter` and the persistent
`in_references` / counters travel in `PassNL`; the only read of
`self.last_chapter_para_idx` (the stale-heading condition on line 381) is
evaluated in `passStep` and passed to the body as the boolean `stale`, and
the only write (`self.last_chapter_para_idx = para_idx` inside
`_check_chapter_heading_format`) is returned as the `Bool` component. -/

structure PassNL where
  core : CoreState
  inTocList : Bool
  inFrontMatter : Bool
deriving DecidableEq

structure PassST where
  core : CoreState
  inTocList : Bool
  inFrontMatter : Bool
  last : ℤ
deriving DecidableEq

/-- The classification block (checker.py lines 379-417): captions, chapter
headings, numbered subheadings; returns the state, and whether
`last_chapter_para_idx` was assigned. -/
def headingFamilyStep (cfg : ThesisConfig) (doc : Document) (p : Paragraph)
    (text textU location : String) (i : ℕ) (isCh isNumH : Bool)
    (c1 : CoreState) : CoreState × Bool :=
  let (c2, paraIssues, setLast) :=
    if is_table_caption text then
      let c := check_table_caption text location c1
      let (c, iss) := check_caption_format cfg doc p "Tablo" c
      (c, iss, false)
    else if is_figure_caption text then
      let c := check_figure_caption text location c1
      let (c, iss) := check_caption_format cfg doc p "Şekil" c
      (c, iss, false)
    else if isCh then
      let c := { c1 with headingsFound := c1.headingsFound ++ [textU] }
      check_chapter_heading_format cfg doc p text c
    else if isNumH then
      let c := { c1 with headingsFound := c1.headingsFound ++ [textU] }
      let (c, iss) := check_subheading_format cfg doc p text c
      (c, iss, false)
    else (c1, [], false)
  let c3 := { c2 with errors := c2.errors
      ++ paraIssues.map (fun iss => issueToError iss location (get_text_snippet text 80)) }
  let c4 := if is_chapter_heading text then check_chapter_start_rules doc i location c3
    else c3
  (c4, setLast)

/-- The block-quote / normal-paragraph / epigraph region
(checker.py lines 419-477). -/
def normalFamilyStep (cfg : ThesisConfig) (doc : Document) (p : Paragraph)
    (text location : String) (isList : Bool) (c1 : CoreState) : CoreState :=
  let (c2, bqIssues) :=
    if is_block_quote_c doc p then check_block_quote_format cfg doc p c1
    else (c1, [])
  let (c3, paraIssues) :=
    if ¬ c2.inReferences then
      let (c, issues) := check_normal_paragraph_format cfg doc p c2
      let issues :=
        if isList then
          issues.filter (fun iss =>
            ¬ (iss.category = ErrorCategory.PARAGRAPH
                 ∨ iss.category = ErrorCategory.LINE_SPACING)
            ∨ (¬ strIn "girinti" (pyLower iss.message)
                 ∧ ¬ strIn "aralık" (pyLower iss.message)))
        else issues
      (c, bqIssues ++ issues)
    else (c2, bqIssues)
  let c4 := { c3 with errors := c3.errors
      ++ paraIssues.map (fun iss => issueToError iss location (get_text_snippet text 80)) }
  if is_epigraph p then
    let (c5, epIssues) := check_epigraph_format cfg doc p c4
    { c5 with errors := c5.errors
        ++ epIssues.map (fun iss => issueToError iss location (get_text_snippet text 80)) }
  else c4

/-- One iteration of the `_check_paragraphs` loop over paragraph `i`, with
the stale-heading condition supplied as `stale`. -/
def passStepGo (cfg : ThesisConfig) (doc : Document) (i : ℕ) (stale : Bool)
    (st : PassNL) : PassNL × Bool :=
  match doc.paragraphs.get? i with
  | none => (st, false)
  | some p =>
      let text := pyStrip (paraText p)
      if text = "" then (st, false)
      else if pyLen text < 2 ∧ ¬ pyIsDigit text then (st, false)
      else
        let textU := pyUpper text
        let location := "Paragraf " ++ toString (i + 1)
        -- skip zones (lines 313-325)
        let skipped0 := is_cover_or_skip st.core.coverEndedAt i text
        let tocHit := strIn "TABLOLAR LİSTESİ" textU || strIn "ŞEKİLLER LİSTESİ" textU
        let inTocList1 := tocHit || st.inTocList
        let skipped1 := skipped0 || tocHit
        let (inTocList2, skipped2) :=
          if inTocList1 then
            if strIn "GİRİŞ" textU || strIn "BÖLÜM" textU then (false, skipped1)
            else (inTocList1, true)
          else (inTocList1, skipped1)
        -- unconditional font gate (lines 329-340)
        let c1 :=
          if 3 < pyLen text then
            let (c, fi) := check_font cfg doc p st.core
            match fi with
            | some iss =>
                addError c (issueToError iss location (get_text_snippet text 80))
            | none => c
          else st.core
        if skipped2 then (⟨c1, inTocList2, st.inFrontMatter⟩, false)
        else
          let inFront1 :=
            if strIn "GİRİŞ" textU ∧ pyLen text < 20 then false else st.inFrontMatter
          if inFront1 && (match p.pf.alignment with
              | some a => a == 1 || a == 2
              | none => false) then
            (⟨c1, inTocList2, inFront1⟩, false)
          else if inFront1 ∧ pyLen text < 150 then
            (⟨c1, inTocList2, inFront1⟩, false)
          else if strIn "KAYNAKÇA" textU ∧ pyLen text < 20 then
            (⟨{ c1 with inReferences := true }, inTocList2, inFront1⟩, false)
          else if is_dialogue_or_transcript text then
            (⟨c1, inTocList2, inFront1⟩, false)
          else if is_source_citation text then
            (⟨c1, inTocList2, inFront1⟩, false)
          else
            let isList := is_list_item p
            let isCap := is_table_caption text || is_figure_caption text
            let isCh := is_chapter_heading text || stale
            let isNumH := (is_numbered_heading text).1
            if isCap || isCh || isNumH then
              let (c4, setLast) :=
                headingFamilyStep cfg doc p text textU location i isCh isNumH c1
              (⟨c4, inTocList2, inFront1⟩, setLast)
            else
              (⟨normalFamilyStep cfg doc p text location isList c1,
                inTocList2, inFront1⟩, false)

/-- One step of the pass with the `last_chapter_para_idx` plumbing. -/
def passStep (cfg : ThesisConfig) (doc : Document) (st : PassST) (i : ℕ) : PassST :=
  let stale := decide (st.last ≠ -1 ∧ (i : ℤ) = st.last + 1)
  let r := passStepGo cfg doc i stale ⟨st.core, st.inTocList, st.inFrontMatter⟩
  ⟨r.1.core, r.1.inTocList, r.1.inFrontMatter, if r.2 then (i : ℤ) else st.last⟩

def runPass (cfg : ThesisConfig) (doc : Document) (ixs : List ℕ) (st : PassST) :
    PassST :=
  ixs.foldl (passStep cfg doc) st

/-- Source: `ThesisChecker._check_paragraphs`. -/
def check_paragraphs (cfg : ThesisConfig) (doc : Document) (s : CheckerState) :
    CheckerState :=
  let fin := runPass cfg doc (List.range doc.paragraphs.length)
    ⟨s.core, false, true, s.lastChapterParaIdx⟩
  ⟨fin.core, fin.last, s.inEnglishAbstract⟩

end TezKontrol

namespace TezKontrol

/-! ## `checker.py`: table, numbering, reference, TOC, page, footnote and
placement checks -/

/-- Source: `ThesisChecker._check_tables` (borders / row-count / context
filters, then per-run font and size collection). -/
def check_tables (cfg : ThesisConfig) (doc : Document) (c : CoreState) : CoreState :=
  doc.tables.enum.foldl
    (fun c it =>
      let (i, table) := it
      let tableName := "Tablo " ++ toString (i + 1)
      if ¬ has_visible_borders table ∨ table.rows.length < 2 then c
      else
        let hasMarker := table.rows.any (fun row => row.cells.any (fun cell =>
          ["TABLO", "TABLE"].any (fun x => strIn x (pyUpper (cellText cell)))))
        if ¬ hasMarker then c
        else
          let (wrongSizes, wrongFonts) := table.rows.foldl
            (fun (acc : List ℤ × List String) row => row.cells.foldl
              (fun acc cell => cell.paragraphs.foldl
                (fun acc para =>
                  if pyStrip (paraText para) = "" then acc
                  else para.runs.foldl
                    (fun (acc : List ℤ × List String) r =>
                      if pyStrip r.text = "" then acc
                      else
                        let font := get_effective_font_name doc para r
                        let acc :=
                          if font ≠ "" ∧ font ≠ cfg.font_name
                              ∧ font ∉ ["Symbol", "Wingdings"] then
                            (acc.1, dedupAppend acc.2 font)
                          else acc
                        let size := get_effective_font_size doc para r
                        if size ≠ 0
                            ∧ 1/2 < |size - (cfg.font_size_table_content : ℚ)| then
                          (dedupAppend acc.1 (pyIntTrunc size), acc.2)
                        else acc)
                    acc)
                acc)
              acc)
            ([], [])
          let issues :=
            (if ¬ wrongSizes.isEmpty then
              ["Boyut: " ++ strJoin ", "
                  ((pySorted wrongSizes).map
                    (fun s => toString s ++ "pt"))
                ++ " (olması gereken: " ++ toString cfg.font_size_table_content
                ++ "pt)"]
             else [])
            ++ (if ¬ wrongFonts.isEmpty then
                ["Font: " ++ strJoin ", " wrongFonts]
              else [])
          if issues.isEmpty then c
          else
            let snippet := match table.rows with
              | [] => ""
              | row :: _ => match row.cells with
                  | [] => ""
                  | cell :: _ => get_text_snippet (cellText cell) 50
            addError c
              { category := .TABLE,
                message := strJoin "; " issues,
                location := tableName,
                expected := toString cfg.font_size_table_content ++ "pt, "
                  ++ cfg.font_name,
                found := "Farklı format",
                snippet := snippet })
    c

/-- The `by_chapter` grouping of `_check_table_figure_numbering`
(`defaultdict(list)` keyed in first-appearance order; items whose dot-split
is not exactly two pieces are dropped). -/
def groupByChapter (items : List String) : List (String × List ℕ) :=
  items.foldl
    (fun acc item =>
      match pySplitCh '.' item with
      | [chapter, num] =>
          if acc.any (fun g => g.1 = chapter) then
            acc.map (fun g =>
              if g.1 = chapter then (g.1, g.2 ++ [pyIntOfStr num]) else g)
          else acc ++ [(chapter, [pyIntOfStr num])]
      | _ => acc)
    []

/-- The numbering `FormatError` built inside `_check_table_figure_numbering`. -/
def mkNumberingError (label chapter : String) (nums sortedNums : List ℕ) :
    FormatError :=
  { category := .NUMBERING,
    message := "Bölüm " ++ chapter ++ "\x27de " ++ label
      ++ " numaralandırması sıralı değil",
    location := label ++ " Numaralandırma",
    expected := "1, 2, 3, ...",
    found := strJoin ", " (sortedNums.map toString),
    snippet := label ++ " dizisi: " ++ strJoin ", " ((nums.take 5).map toString) }

/-- The per-chapter body of `_check_table_figure_numbering`. -/
def numberingChapterStep (label : String) (c : CoreState)
    (chn : String × List ℕ) : CoreState :=
  let sortedNums := pySorted chn.2
  let expected := List.range' 1 chn.2.length
  if sortedNums ≠ expected then
    addError c (mkNumberingError label chn.1 chn.2 sortedNums)
  else c

/-- Source: `ThesisChecker._check_table_figure_numbering`: for each caption
type and chapter, compare the sorted collected numbers with `[1..N]`. -/
def check_table_figure_numbering (c : CoreState) : CoreState :=
  [("Tablo", c.tablesFound), ("Şekil", c.figuresFound)].foldl
    (fun c pair =>
      if pair.2.isEmpty then c
      else (groupByChapter pair.2).foldl (numberingChapterStep pair.1) c)
    c

/-! ### `_check_references` -/

/-- Author-pattern prefix
`^[A-ZÇĞİÖŞÜa-zçğıöşü][a-zçğıöşüA-ZÇĞİÖŞÜ\-\x27]+,\s*[A-ZÇĞİÖŞÜ]\.[A-ZÇĞİÖŞÜ]?\.?`
(the trailing optional pieces always succeed and are omitted). -/
def matchAuthor (text : String) : Bool :=
  match text.data with
  | [] => false
  | c :: cs =>
      if isAlphaTR c then
        let body := cs.takeWhile (fun ch => isAlphaTR ch ∨ ch = '-' ∨ ch = '\x27')
        let rest := cs.dropWhile (fun ch => isAlphaTR ch ∨ ch = '-' ∨ ch = '\x27')
        if body.isEmpty then false
        else
          match rest with
          | ',' :: r2 =>
              match chClass isUpperTR (wsS r2) with
              | some r3 => (lit "." r3).isSome
              | none => false
          | _ => false
      else false

/-- Search for a parenthesised 4-digit year `\(\d{4}\)`. -/
def hasYearParen (text : String) : Bool :=
  searchP (fun l => (lit "(" l).bind (fun r => (digits4 r).bind (lit ")"))) text.data

/-- The per-entry issue messages of `_check_references` (hanging indent,
italic run, year token, author pattern, 3nk spacing), in source order. -/
def refEntryIssues (p : Paragraph) (text : String) : List String :=
  let indentIssues :=
    match p.pf.first_line_indent with
    | some l =>
        if l ≠ 0 then
          let indentCm := Length.cm l
          if -1/10 ≤ indentCm then ["Asılı girinti yok (1 cm asılı girinti olmalı)"]
          else if 1/5 < abs (abs indentCm - 1) then
            ["Asılı girinti " ++ fmtFixed1 (abs indentCm) ++ "cm (1 cm olmalı)"]
          else []
        else ["Asılı girinti eksik (1 cm asılı girinti olmalı)"]
    | none => ["Asılı girinti eksik (1 cm asılı girinti olmalı)"]
  let hasItalic := p.runs.any (fun r => r.italic = some true ∧ pyStrip r.text ≠ "")
  let italicIssues :=
    if ¬ hasItalic then ["İtalik kısım yok (dergi/kitap adı italik olmalı)"] else []
  let yearIssues := if ¬ hasYearParen text then ["Yıl formatı hatalı (YYYY) olmalı"] else []
  let authorIssues :=
    if ¬ matchAuthor text then ["Yazar formatı: Soyad, A. şeklinde olmalı"] else []
  let sb := match p.pf.space_before with
    | some l => if l ≠ 0 then Length.pt l else 0
    | none => 0
  let sa := match p.pf.space_after with
    | some l => if l ≠ 0 then Length.pt l else 0
    | none => 0
  let spacingIssues :=
    if 1 < |sb - 3| ∨ 1 < |sa - 3| then
      ["Kaynakça boşluğu " ++ toString (pyIntTrunc sb) ++ "nk-"
        ++ toString (pyIntTrunc sa) ++ "nk (3nk-3nk olmalı)"]
    else []
  indentIssues ++ italicIssues ++ yearIssues ++ authorIssues ++ spacingIssues

def refNoiseKeywords : List String :=
  ["KISALTMALAR LİSTESİ", "ÖZ GEÇMİŞ", "ÖZGEÇMİŞ", "EK", "EKLER", "ÖNSÖZ", "ÖN SÖZ"]

/-- The scanning loop of `_check_references`, collecting
`(location, message, snippet)` triples; breaks at the first chapter heading
after `KAYNAKÇA`. -/
def refScanGo (inRef : Bool) (refCount : ℕ)
    (acc : List (String × String × String)) :
    List Paragraph → List (String × String × String)
  | [] => acc
  | p :: rest =>
      let text := pyStrip (paraText p)
      if strIn "KAYNAKÇA" (pyUpper text) ∧ pyLen text < 20 then
        refScanGo true refCount acc rest
      else if inRef ∧ text ≠ "" then
        if is_chapter_heading text then acc
        else
          let textU := pyUpper text
          let isStructuralHeader := textU = text ∧ (pySplitWs text).length < 5
          if (refNoiseKeywords.any (fun x => strIn x textU)) ∧ pyLen text < 40 then
            refScanGo inRef refCount acc rest
          else if isStructuralHeader ∨ pyIsDigit text ∨ (pySplitWs text).length < 3
              ∨ (strIn ":" text ∧ pyLen ((pySplitCh ':' text).headD "") < 10) then
            refScanGo inRef refCount acc rest
          else
            let refCount := refCount + 1
            let issues := refEntryIssues p text
            refScanGo inRef refCount
              (acc ++ issues.map (fun m =>
                ("Kaynakça " ++ toString refCount, m, get_text_snippet text 50)))
              rest
      else refScanGo inRef refCount acc rest

/-- The `error_types` grouping (insertion-ordered dict message → entries). -/
def groupRefErrors (refErrors : List (String × String × String)) :
    List (String × List (String × String)) :=
  refErrors.foldl
    (fun acc e =>
      let (loc, msg, snip) := e
      if acc.any (fun g => g.1 = msg) then
        acc.map (fun g => if g.1 = msg then (g.1, g.2 ++ [(loc, snip)]) else g)
      else acc ++ [(msg, [(loc, snip)])])
    []

/-- Source: `ThesisChecker._check_references` (the final highlighting sweep
writes only run colors and is not modelled). -/
def check_references (doc : Document) (c : CoreState) : CoreState :=
  let refErrors := refScanGo false 0 [] doc.paragraphs
  if refErrors.isEmpty then c
  else
    (groupRefErrors refErrors).foldl
      (fun c g =>
        let (msg, refs) := g
        let c := bumpTotal c
        let snippets := (refs.take 5).map (fun r =>
          r.1 ++ ": \"" ++ r.2 ++ "\"")
        let moreText := if 5 < refs.length then
            " (+" ++ toString (refs.length - 5) ++ " daha)" else ""
        addError c
          { category := .REFERENCE,
            message := msg ++ " (" ++ toString refs.length ++ " kaynak)",
            location := "Kaynakça",
            expected := "APA 7 formatı",
            found := toString refs.length ++ " kaynak",
            snippet := strJoin "; " snippets ++ moreText })
      c

/-- Source: `re.sub(r'[\.\s]', '', h)` in `_check_toc_consistency`. -/
def cleanHeading (h : String) : String :=
  String.mk (h.data.filter (fun ch => ¬ (ch = '.' ∨ isPyWs ch)))

/-- Source: `ThesisChecker._check_toc_consistency`.  In the second loop the
exact-match branch increments `passed_checks` without `total_checks`. -/
def check_toc_consistency (c : CoreState) : CoreState :=
  if c.tocHeadings.isEmpty then c
  else
    let tocList := c.tocHeadings.map Prod.fst
    let textList := c.headingsFound
    let cleanTextSet := textList.map cleanHeading
    let cleanTocSet := tocList.map cleanHeading
    let c := tocList.foldl
      (fun c tocH =>
        let cleanToc := cleanHeading tocH
        let found := cleanTextSet.contains cleanToc
          || cleanTextSet.any (fun ct => strIn cleanToc ct || strIn ct cleanToc)
        let c := bumpTotal c
        if ¬ found then
          addError c
            { category := .SECTION,
              message := "İçindekiler\x27de yer alan başlık metinde bulunamadı: "
                ++ tocH,
              location := "İçindekiler",
              expected := "Başlığın metinde yer alması",
              found := "Eksik başlık" }
        else bumpPassed c)
      c
    let girisStep := fun (acc : CoreState × Bool) (textH : String) =>
      let (c, girisFound) := acc
      let girisFound := girisFound || strIn "GİRİŞ" textH
      if girisFound then
        let cleanText := cleanHeading textH
        if cleanTocSet.contains cleanText then (bumpPassed c, girisFound)
        else
          let found := cleanTocSet.any (fun ct => strIn cleanText ct || strIn ct cleanText)
          let c := bumpTotal c
          if ¬ found then
            (addError c
              { category := .SECTION,
                message := "Metindeki başlık İçindekiler\x27de bulunamadı: " ++ textH,
                location := "İçindekiler",
                expected := "Başlığın İçindekiler\x27de yer alması",
                found := "Eksik İçindekiler kaydı" }, girisFound)
          else (bumpPassed c, girisFound)
      else (c, girisFound)
    (textList.foldl girisStep (c, false)).1

/-- Source: `ThesisChecker._check_page_numbers`. -/
def check_page_numbers (cfg : ThesisConfig) (doc : Document) (c : CoreState) :
    CoreState :=
  doc.sections.enum.foldl
    (fun c it =>
      let (i, sec) := it
      let c := bumpTotal c
      let footerDist := match sec.footer_distance with
        | some l => if l ≠ 0 then Length.cm l else 0
        | none => 0
      let c :=
        if ¬ (2/5 ≤ footerDist ∧ footerDist ≤ 5/2) then
          addError c
            { category := .NUMBERING,
              message := "Sayfa numarası (footer) mesafesi " ++ fmtFixed2 footerDist
                ++ " cm (0.4 - 2.5 cm arası kabul edilir)",
              location := "Bölüm " ++ toString (i + 1) ++ " Alt Bilgi",
              expected := "0.4 - 2.5 cm",
              found := fmtFixed2 footerDist ++ " cm" }
        else bumpPassed c
      -- numbering-type check (lines 1361-1363): only the counter is bumped
      let c := bumpTotal c
      match sec.footerParas with
      | [] => c
      | fp :: _ =>
          let c := bumpTotal c
          let c :=
            if fp.pf.alignment ≠ some 1 then
              addError c
                { category := .NUMBERING,
                  message := "Sayfa numarası ortalanmış olmalı",
                  location := "Bölüm " ++ toString (i + 1) ++ " Sayfa Numarası",
                  expected := "Ortalı",
                  found := "Farklı hizalama" }
            else bumpPassed c
          let (c, fontIssue) := check_font cfg doc fp c
          let c := match fontIssue with
            | some _ =>
                addError c
                  { category := .FONT,
                    message := "Sayfa numarası yazı tipi Times New Roman olmalı",
                    location := "Bölüm " ++ toString (i + 1) ++ " Sayfa Numarası",
                    expected := "Times New Roman" }
            | none => c
          let (c, sizeIssue) := check_size cfg doc fp 10 "Sayfa Numarası" c
          match sizeIssue with
          | some _ =>
              addError c
                { category := .FONT_SIZE,
                  message := "Sayfa numarası 10 punto olmalı",
                  location := "Bölüm " ++ toString (i + 1) ++ " Sayfa Numarası",
                  expected := "10 pt" }
          | none => c)
    c

/-- Source: `ThesisChecker._add_footnote_error`: the counter is bumped before
the per-message dedup test. -/
def add_footnote_error (msg expected found : String) (c : CoreState) : CoreState :=
  let c := bumpTotal c
  if c.errors.any (fun e => e.location = "Dipnotlar" ∧ e.message = msg) then c
  else addError c
    { category := .FOOTNOTE, message := msg, location := "Dipnotlar",
      expected := expected, found := found }

/-- Per-run font/size checks of `_check_footnotes`. -/
def footnoteRunCheck (doc : Document) (r : FnRun) (c : CoreState) : CoreState :=
  let font : Option String :=
    if r.rPrPresent then
      match r.ascii.orElse (fun _ => r.hAnsi) with
      | some f => some f
      | none =>
          match r.asciiTheme.orElse (fun _ => r.hAnsiTheme) with
          | some th => some ("Tema Fontu (" ++ th ++ ")")
          | none => none
    else none
  let c :=
    if r.rPrPresent then
      match r.szHalf with
      | some sz =>
          let val := (sz : ℚ) / 2
          if val ≠ 10 then
            add_footnote_error "Dipnot yazı boyutu 10 punto olmalı" "10 pt"
              (pyStrFloat val ++ " pt") c
          else c
      | none => c
    else c
  let font :=
    match font with
    | some f => some f
    | none =>
        match (doc.docDefaults.rFontsAscii.orElse
            (fun _ => doc.docDefaults.rFontsAsciiTheme)) with
        | some defF =>
            if defF ≠ "Times New Roman" then some ("Varsayılan (" ++ defF ++ ")")
            else none
        | none => none
  match font with
  | some f =>
      if f ≠ "Times New Roman" ∧ f ∉ ["Symbol", "Cambria Math"] then
        add_footnote_error "Dipnot yazı tipi Times New Roman olmalı"
          "Times New Roman" f c
      else c
  | none => c

/-- Per-paragraph checks of `_check_footnotes`. -/
def footnoteParaCheck (doc : Document) (p : FnPara) (c : CoreState) : CoreState :=
  let pText := fnParaText p
  if pText = "" ∨ pyLen pText < 3 then c
  else if pText.data.all (fun ch => ch ∈ ['-', '_', ' ', '\t', '\n', '\x0d']) then c
  else
    let c := p.runs.foldl (fun c r => footnoteRunCheck doc r c) c
    if p.pPrPresent then
      let jcVal := p.jc.getD "left"
      let c :=
        if jcVal ∉ ["both", "distribute"] then
          add_footnote_error "Dipnot iki yana yaslı olmalı" "İki yana yaslı" jcVal c
        else c
      match p.spacing with
      | none => c
      | some sp =>
          let before := sp.before.getD "0"
          let after := sp.after.getD "0"
          let c :=
            if before ≠ "0" ∨ after ≠ "0" then
              add_footnote_error "Dipnot aralığı 0nk olmalı" "0nk-0nk"
                (before ++ "nk-" ++ after ++ "nk") c
            else c
          if sp.lineRule = some "auto" then
            match sp.line with
            | some line =>
                if line ≠ "" ∧ 240 < pyIntOfStr line then
                  add_footnote_error "Dipnot satır aralığı 1.0 (tek) olmalı" "1.0"
                    (fmtFixed1 ((pyIntOfStr line : ℚ) / 240)) c
                else c
            | none => c
          else c
    else c

/-- Source: `ThesisChecker._check_footnotes` (footnotes with `w:id > 0`;
the enclosing `try/except Exception: pass` has nothing to catch in the
model). -/
def check_footnotes (doc : Document) (c : CoreState) : CoreState :=
  match doc.footnotesPart with
  | none => c
  | some fns =>
      (fns.filter (fun f => 0 < f.id)).foldl
        (fun c f => f.paras.foldl (fun c p => footnoteParaCheck doc p c) c)
        c

/-- The backward caption search of `_check_element_placement`
(`for j in range(1, 4)`: skip blank paragraphs, accept a table caption,
stop at substantial text; non-paragraph elements are skipped). -/
def placementLookBack (elements : List BodyElt) (i : ℕ) : Bool :=
  let rec go : List ℕ → Bool
    | [] => false
    | j :: js =>
        if j ≤ i then
          match elements.get? (i - j) with
          | some (.p text) =>
              let t := pyStrip text
              if t = "" then go js
              else if is_table_caption t then true
              else if 20 < pyLen t then false
              else go js
          | _ => go js
        else go js
  go [1, 2, 3]

/-- Source: `ThesisChecker._check_element_placement` (the figure check is
disabled in the source). -/
def check_element_placement (doc : Document) (c : CoreState) : CoreState :=
  (doc.bodyElements.enum.foldl
    (fun (acc : CoreState × ℕ) it =>
      let (c, tableCount) := acc
      match it.2 with
      | .p _ => (c, tableCount)
      | .tbl =>
          let tableCount := tableCount + 1
          if placementLookBack doc.bodyElements it.1 then (c, tableCount)
          else
            (addError (bumpTotal c)
              { category := .TABLE,
                message := "Tablo başlığı tablonun ÜSTÜNDE olmalıdır",
                location := "Tablo " ++ toString tableCount,
                expected := "Üstte Başlık",
                found := "Eksik veya altta" }, tableCount))
    (c, 0)).1

/-! ## `checker.py`: report generation and the public entry point -/

structure GroupSeg where
  location : String
  issues : List String
  snippet : String
deriving DecidableEq

structure Report where
  total_errors : ℕ
  total_checks : ℕ
  passed_checks : ℕ
  compliance_score : ℚ
  missing_sections : List String
  sections_found : ℕ
  sections_required : ℕ
  abstract_issues : List String
  abstract_word_count : ℕ
  tables_count : ℕ
  figures_count : ℕ
  toc_headings_count : ℕ
  grouped_errors : List (String × List GroupSeg)
deriving DecidableEq

def reportRequiredSections : List String :=
  ["Özet", "Abstract", "Giriş", "Sonuç", "Kaynakça", "İçindekiler"]

/-- The score computation of `_generate_report` (score clamped via
`min(100.0, …)`, `100.0` default when no checks ran, 5-point penalty per
missing section floored at 0, final `round(score, 1)`). -/
def computeScore (total passed missingCount : ℕ) : ℚ :=
  let score : ℚ := if 0 < total then min 100 ((passed : ℚ) / (total : ℚ) * 100)
    else 100
  let score := if 0 < missingCount then max 0 (score - (missingCount : ℚ) * 5)
    else score
  pyRound1 score

/-- The `(category, location)` grouping of `_generate_report`. -/
def groupErrors (errors : List FormatError) :
    List (String × String × GroupSeg) :=
  errors.foldl
    (fun acc e =>
      let category := e.category.value
      let locKey := category ++ "_" ++ e.location
      if acc.any (fun g => g.1 = locKey) then
        acc.map (fun g =>
          if g.1 = locKey then
            (g.1, g.2.1,
             if g.2.2.issues.contains e.message then g.2.2
             else { g.2.2 with issues := g.2.2.issues ++ [e.message] })
          else g)
      else
        acc ++ [(locKey, category,
          { location := e.location, issues := [e.message], snippet := e.snippet })])
    []

def groupByCategory (entries : List (String × String × GroupSeg)) :
    List (String × List GroupSeg) :=
  entries.foldl
    (fun acc e =>
      let category := e.2.1
      if acc.any (fun g => g.1 = category) then
        acc.map (fun g => if g.1 = category then (g.1, g.2 ++ [e.2.2]) else g)
      else acc ++ [(category, [e.2.2])])
    []

/-- Source: `ThesisChecker._generate_report`. -/
def generate_report (c : CoreState) : Report :=
  let missing := reportRequiredSections.filter (fun s => ¬ c.sectionsFound.contains s)
  let grouped := groupByCategory (groupErrors c.errors)
  let abstractIssues := (c.errors.filter
    (fun e => e.category = ErrorCategory.ABSTRACT)).map FormatError.message
  { total_errors := c.errors.length,
    total_checks := c.totalChecks,
    passed_checks := c.passedChecks,
    compliance_score := computeScore c.totalChecks c.passedChecks missing.length,
    missing_sections := missing,
    sections_found := c.sectionsFound.length,
    sections_required := reportRequiredSections.length,
    abstract_issues := abstractIssues,
    abstract_word_count := if c.abstractText ≠ "" then count_words c.abstractText else 0,
    tables_count := c.tablesFound.length,
    figures_count := c.figuresFound.length,
    toc_headings_count := c.tocHeadings.length,
    grouped_errors := grouped }

/-- Source: `ThesisChecker._error_report` (the bare-dict fatal report). -/
structure ErrReport where
  total_errors : ℕ
  compliance_score : ℚ
  grouped_errors : List (String × List GroupSeg)
  missing_sections : List String
  abstract_issues : List String
  sections_found : ℕ
  sections_required : ℕ
deriving DecidableEq

def error_report (errorMsg : String) : ErrReport :=
  { total_errors := 1,
    compliance_score := 0,
    grouped_errors := [("Dosya Hatası",
      [{ location := "Dosya", issues := [errorMsg], snippet := "" }])],
    missing_sections := [],
    abstract_issues := [],
    sections_found := 0,
    sections_required := 6 }

/-- The two shapes `ThesisChecker.analyze` can return: the success 2-tuple
`(report, document)`, or the bare error-report dict from the `except`
branch. -/
inductive AnalyzeResult
  | tuple2 (report : Report) (doc : Document)
  | bare (report : ErrReport)
deriving DecidableEq

/-- Source: `ThesisChecker.analyze`: reset, load (`Except` models the
`try/except` around `Document(doc_path)`), the pre-analysis passes, the
check sequence, then `return self._generate_report(), self.document`. -/
def analyze (cfg : ThesisConfig) (load : Except String Document)
    (s : CheckerState) : AnalyzeResult × CheckerState :=
  let s0 := reset s
  match load with
  | .error e => (.bare (error_report e), s0)
  | .ok doc =>
      let c1 := { s0.core with coverEndedAt := find_cover_end doc }
      let c2 := parse_toc doc c1
      let fs := find_sections doc c2
      let s1 : CheckerState :=
        { core := fs.1,
          lastChapterParaIdx := s0.lastChapterParaIdx,
          inEnglishAbstract := s0.inEnglishAbstract || fs.2 }
      let c4 := check_abstract cfg s1.core
      let c5 := check_margins cfg doc c4
      let s2 := check_paragraphs cfg doc { s1 with core := c5 }
      let c6 := check_tables cfg doc s2.core
      let c7 := check_table_figure_numbering c6
      let c8 := check_references doc c7
      let c9 := check_toc_consistency c8
      let c10 := check_page_numbers cfg doc c9
      let c11 := check_footnotes doc c10
      let c12 := check_element_placement doc c11
      let sF := { s2 with core := c12 }
      (.tuple2 (generate_report sF.core) doc, sF)

/-- Source: `checker.analyze_thesis`: a fresh `ThesisChecker` instance, then
`analyze`. -/
def analyze_thesis (cfg : ThesisConfig) (load : Except String Document) :
    AnalyzeResult :=
  (analyze cfg load initialState).1

/-- The portion of the `analyze` pipeline ahead of `_check_paragraphs`,
as a function of the document alone (cover end, TOC parse, sections,
abstract, margins). -/
def prePass (cfg : ThesisConfig) (doc : Document) : CoreState :=
  check_margins cfg doc (check_abstract cfg
    (find_sections doc (parse_toc doc
      ({ coverEndedAt := find_cover_end doc } : CoreState))).1)

/-- The portion of the `analyze` pipeline after `_check_paragraphs` (tables,
numbering, references, TOC consistency, page numbers, footnotes, element
placement), as a function of the incoming core state. -/
def postPass (cfg : ThesisConfig) (doc : Document) (c : CoreState) : CoreState :=
  check_element_placement doc (check_footnotes doc (check_page_numbers cfg doc
    (check_toc_consistency (check_references doc (check_table_figure_numbering
      (check_tables cfg doc c))))))

end TezKontrol

namespace TezKontrol

/-! ## Specification-side definitions (for refinement comparisons)

These follow the wording of the specification, to be compared with the
definitions embedded from the source. -/

/-- The score formula as the specification words it: clamp the pass ratio to
`[0, 100]`, round to one decimal, then subtract 5 points per missing
required section with a floor of 0. -/
def specScore (total passed missingCount : ℕ) : ℚ :=
  max 0 (pyRound1 (min 100 (max 0 ((passed : ℚ) / (total : ℚ) * 100)))
    - (missingCount : ℚ) * 5)

/-- The numbering check as the specification words it: for each chapter an
issue exactly when the sorted item numbers differ from `[1..N]`. -/
def specNumberingErrors (label : String) (items : List String) : List FormatError :=
  (groupByChapter items).filterMap (fun chn =>
    if pySorted chn.2 ≠ List.range' 1 chn.2.length then
      some (mkNumberingError label chn.1 chn.2 (pySorted chn.2))
    else none)

/-- `passStepGo` with the block-quote / normal-paragraph / epigraph region
(checker.py lines 419-477) replaced by the identity: the step restricted to
the skip logic and the caption/heading family.  Classification exclusivity
(claim C8) states that on a chapter-heading paragraph the full step equals
this restricted step. -/
def passStepGoHeadingOnly (cfg : ThesisConfig) (doc : Document) (i : ℕ)
    (stale : Bool) (st : PassNL) : PassNL × Bool :=
  match doc.paragraphs.get? i with
  | none => (st, false)
  | some p =>
      let text := pyStrip (paraText p)
      if text = "" then (st, false)
      else if pyLen text < 2 ∧ ¬ pyIsDigit text then (st, false)
      else
        let textU := pyUpper text
        let location := "Paragraf " ++ toString (i + 1)
        let skipped0 := is_cover_or_skip st.core.coverEndedAt i text
        let tocHit := strIn "TABLOLAR LİSTESİ" textU || strIn "ŞEKİLLER LİSTESİ" textU
        let inTocList1 := tocHit || st.inTocList
        let skipped1 := skipped0 || tocHit
        let (inTocList2, skipped2) :=
          if inTocList1 then
            if strIn "GİRİŞ" textU || strIn "BÖLÜM" textU then (false, skipped1)
            else (inTocList1, true)
          else (inTocList1, skipped1)
        let c1 :=
          if 3 < pyLen text then
            let (c, fi) := check_font cfg doc p st.core
            match fi with
            | some iss =>
                addError c (issueToError iss location (get_text_snippet text 80))
            | none => c
          else st.core
        if skipped2 then (⟨c1, inTocList2, st.inFrontMatter⟩, false)
        else
          let inFront1 :=
            if strIn "GİRİŞ" textU ∧ pyLen text < 20 then false else st.inFrontMatter
          if inFront1 && (match p.pf.alignment with
              | some a => a == 1 || a == 2
              | none => false) then
            (⟨c1, inTocList2, inFront1⟩, false)
          else if inFront1 ∧ pyLen text < 150 then
            (⟨c1, inTocList2, inFront1⟩, false)
          else if strIn "KAYNAKÇA" textU ∧ pyLen text < 20 then
            (⟨{ c1 with inReferences := true }, inTocList2, inFront1⟩, false)
          else if is_dialogue_or_transcript text then
            (⟨c1, inTocList2, inFront1⟩, false)
          else if is_source_citation text then
            (⟨c1, inTocList2, inFront1⟩, false)
          else
            let isCap := is_table_caption text || is_figure_caption text
            let isCh := is_chapter_heading text || stale
            let isNumH := (is_numbered_heading text).1
            if isCap || isCh || isNumH then
              let (c4, setLast) :=
                headingFamilyStep cfg doc p text textU location i isCh isNumH c1
              (⟨c4, inTocList2, inFront1⟩, setLast)
            else
              (⟨c1, inTocList2, inFront1⟩, false)

/-! ## Concrete fixture documents for witnesses and counterexamples -/

/-- A compliant `GİRİŞ` chapter heading (TNR 14pt bold, 101pt space
before). -/
def fixGirisPara : Paragraph :=
  { runs := [{ text := "GİRİŞ", fontName := some "Times New Roman",
               size := some 14, bold := some true }],
    pf := { space_before := some (Pt 101) } }

/-- A compliant table caption paragraph (TNR 12pt). -/
def fixCaptionPara : Paragraph :=
  { runs := [{ text := "Tablo 1.1: Deneme", fontName := some "Times New Roman",
               size := some 12 }] }

/-- A two-paragraph document in which every evaluated check succeeds; the
table-caption check then makes `passed_checks` exceed `total_checks`. -/
def fixDoc2 : Document :=
  { paragraphs := [fixGirisPara, fixCaptionPara],
    bodyElements := [.p "GİRİŞ", .p "Tablo 1.1: Deneme"] }

/-- A 199-word abstract body. -/
def abstract199 : String := strJoin " " (List.replicate 199 "kelime")

/-- A document with an `ÖZET` section followed by a 199-word abstract
paragraph. -/
def fixDocAbs : Document :=
  { paragraphs :=
      [{ runs := [{ text := "ÖZET" }] },
       { runs := [{ text := abstract199 }] },
       { runs := [{ text := "ABSTRACT" }] }] }

/-- A paragraph whose line spacing is stored as an exact 18pt value while its
run's font size resolves to 9pt. -/
def fixExactSpacingPara : Paragraph :=
  { runs := [{ text := "metin", size := some 9 }],
    pf := { line_spacing := some (.len (Pt 18)),
            line_spacing_rule := some (.wd .exactly) } }

/-- A style registry with a two-cycle `A ⇄ B` and no font attribute
anywhere: the `while style:` chain walk never terminates on it. -/
def fixCyclicDoc : Document :=
  { styles := [{ name := "A", basedOn := some "B" },
               { name := "B", basedOn := some "A" }] }

/-- A one-link acyclic registry: `C` based on nothing, defining a font. -/
def fixAcyclicDoc : Document :=
  { styles := [{ name := "C", fontName := some "Arial" }] }

/-- The report component of an `AnalyzeResult` (dummy report for the error
shape), used to state concrete facts about analysis runs without binders. -/
def reportOf (r : AnalyzeResult) : Report :=
  match r with
  | .tuple2 rep _ => rep
  | .bare _ =>
      { total_errors := 0, total_checks := 0, passed_checks := 0,
        compliance_score := 0, missing_sections := [], sections_found := 0,
        sections_required := 0, abstract_issues := [], abstract_word_count := 0,
        tables_count := 0, figures_count := 0, toc_headings_count := 0,
        grouped_errors := [] }

end TezKontrol

namespace TezKontrol

/-! # Theorems -/

/-! ## Rounding helper lemmas -/

theorem rhe_intCast (n : ℤ) : rhe (n : ℚ) = n := by
  unfold rhe
  rw [Int.floor_intCast]
  norm_num

theorem rhe_ge_floor (q : ℚ) : ⌊q⌋ ≤ rhe q := by
  unfold rhe
  split_ifs <;> omega

theorem rhe_nonneg {q : ℚ} (h : 0 ≤ q) : 0 ≤ rhe q :=
  le_trans (Int.floor_nonneg.mpr h) (rhe_ge_floor q)

theorem rhe_le_int {q : ℚ} {n : ℤ} (h : q ≤ (n : ℚ)) : rhe q ≤ n := by
  have hf : ⌊q⌋ ≤ n := by
    have := Int.floor_le_floor h
    simpa using this
  unfold rhe
  split_ifs with h1 h2 h3
  · exact hf
  · -- the fractional part is at least 1/2, so ⌊q⌋ < n
    have hlt : (⌊q⌋ : ℚ) + 1/2 ≤ q := by linarith
    have : (⌊q⌋ : ℚ) < (n : ℚ) := by linarith
    have : ⌊q⌋ < n := by exact_mod_cast this
    omega
  · exact hf
  · have hlt : (⌊q⌋ : ℚ) + 1/2 ≤ q := by linarith
    have : (⌊q⌋ : ℚ) < (n : ℚ) := by linarith
    have : ⌊q⌋ < n := by exact_mod_cast this
    omega

theorem rhe_add_even (q : ℚ) {k : ℤ} (hk : Even k) : rhe (q + (k : ℚ)) = rhe q + k := by
  unfold rhe
  rw [Int.floor_add_int]
  have hr : q + (k : ℚ) - ((⌊q⌋ + k : ℤ) : ℚ) = q - (⌊q⌋ : ℚ) := by
    push_cast
    ring
  rw [hr]
  have he : Even (⌊q⌋ + k) ↔ Even ⌊q⌋ := by
    rw [Int.even_add]
    simp [hk]
  by_cases h1 : q - (⌊q⌋ : ℚ) < 1/2
  · rw [if_pos h1, if_pos h1]
  · rw [if_neg h1, if_neg h1]
    by_cases h2 : 1/2 < q - (⌊q⌋ : ℚ)
    · rw [if_pos h2, if_pos h2]
      ring
    · rw [if_neg h2, if_neg h2]
      by_cases h3 : Even ⌊q⌋
      · rw [if_pos (he.mpr h3), if_pos h3]
      · rw [if_neg (fun hc => h3 (he.mp hc)), if_neg h3]
        ring

theorem pyRound1_intCast (n : ℤ) : pyRound1 (n : ℚ) = (n : ℚ) := by
  unfold pyRound1
  have : (10 : ℚ) * (n : ℚ) = ((10 * n : ℤ) : ℚ) := by push_cast; ring
  rw [this, rhe_intCast]
  push_cast
  ring

theorem pyRound1_nonneg {q : ℚ} (h : 0 ≤ q) : 0 ≤ pyRound1 q := by
  unfold pyRound1
  have : (0 : ℤ) ≤ rhe (10 * q) := rhe_nonneg (by linarith)
  positivity

theorem pyRound1_le_int {q : ℚ} {n : ℤ} (h : q ≤ (n : ℚ)) : pyRound1 q ≤ (n : ℚ) := by
  unfold pyRound1
  have h10 : (10 : ℚ) * q ≤ ((10 * n : ℤ) : ℚ) := by push_cast; linarith
  have := rhe_le_int h10
  have hc : (rhe (10 * q) : ℚ) ≤ ((10 * n : ℤ) : ℚ) := by exact_mod_cast this
  push_cast at hc
  linarith

theorem pyRound1_ge_int {q : ℚ} {n : ℤ} (h : (n : ℚ) ≤ q) : (n : ℚ) ≤ pyRound1 q := by
  unfold pyRound1
  have : (10 * n : ℤ) ≤ ⌊10 * q⌋ := by
    rw [Int.le_floor]
    push_cast
    linarith
  have h2 : (10 * n : ℤ) ≤ rhe (10 * q) := le_trans this (rhe_ge_floor _)
  have hc : ((10 * n : ℤ) : ℚ) ≤ (rhe (10 * q) : ℚ) := by exact_mod_cast h2
  push_cast at hc
  linarith

theorem pyRound1_add_int (q : ℚ) (k : ℤ) (hk : Even (10 * k)) :
    pyRound1 (q + (k : ℚ)) = pyRound1 q + (k : ℚ) := by
  unfold pyRound1
  have : (10 : ℚ) * (q + (k : ℚ)) = 10 * q + ((10 * k : ℤ) : ℚ) := by push_cast; ring
  rw [this, rhe_add_even _ hk]
  push_cast
  ring

example : True := trivial

end TezKontrol

namespace TezKontrol

/-! ## Score lemmas (claims C2 and C10) -/

theorem computeScore_zero_total (p m : ℕ) :
    computeScore 0 p m = max 0 (100 - 5 * (m : ℚ)) := by
  simp only [computeScore]
  rw [if_neg (by omega : ¬ (0 : ℕ) < 0)]
  by_cases hm : 0 < m
  · rw [if_pos hm]
    have hcast : max (0 : ℚ) (100 - (m : ℚ) * 5)
        = ((max 0 (100 - (m : ℤ) * 5) : ℤ) : ℚ) := by
      push_cast
      ring_nf
    rw [hcast, pyRound1_intCast]
    push_cast
    ring_nf
  · rw [if_neg hm]
    have hm0 : m = 0 := by omega
    subst hm0
    rw [show (100 : ℚ) = ((100 : ℤ) : ℚ) by norm_num, pyRound1_intCast]
    norm_num

theorem computeScore_eq_spec {t : ℕ} (p m : ℕ) (ht : 0 < t) :
    computeScore t p m = specScore t p m := by
  simp only [computeScore, specScore]
  have hr0 : (0 : ℚ) ≤ (p : ℚ) / (t : ℚ) * 100 := by positivity
  rw [if_pos ht, max_eq_right hr0]
  set x : ℚ := min 100 ((p : ℚ) / (t : ℚ) * 100) with hx
  have hx0 : (0 : ℚ) ≤ x := le_min (by norm_num) hr0
  by_cases hm : 0 < m
  · rw [if_pos hm]
    by_cases hcmp : (m : ℚ) * 5 ≤ x
    · rw [max_eq_right (by linarith : (0 : ℚ) ≤ x - (m : ℚ) * 5)]
      have h2 : x - (m : ℚ) * 5 = x + (((-5 * m : ℤ)) : ℚ) := by push_cast; ring
      rw [h2, pyRound1_add_int x (-5 * m) ⟨-25 * m, by ring⟩]
      have h3 : ((5 * m : ℤ) : ℚ) ≤ pyRound1 x :=
        pyRound1_ge_int (by push_cast; linarith)
      push_cast at h3 ⊢
      rw [max_eq_right (by linarith)]
      ring
    · push_neg at hcmp
      rw [max_eq_left (by linarith : x - (m : ℚ) * 5 ≤ 0)]
      have h0 : pyRound1 (0 : ℚ) = 0 := by
        have := pyRound1_intCast 0
        simpa using this
      rw [h0]
      have h3 : pyRound1 x ≤ ((5 * m : ℤ) : ℚ) := pyRound1_le_int (by push_cast; linarith)
      push_cast at h3
      rw [eq_comm, max_eq_left (by linarith)]
  · rw [if_neg hm]
    have hm0 : m = 0 := by omega
    subst hm0
    rw [eq_comm]
    push_cast
    simpa using max_eq_right (pyRound1_nonneg hx0)

theorem computeScore_bounds (t p m : ℕ) :
    0 ≤ computeScore t p m ∧ computeScore t p m ≤ 100 := by
  simp only [computeScore]
  set base : ℚ := if 0 < t then min 100 ((p : ℚ) / (t : ℚ) * 100) else 100 with hbase
  have hb0 : (0 : ℚ) ≤ base := by
    rw [hbase]
    split_ifs
    · exact le_min (by norm_num) (by positivity)
    · norm_num
  have hb1 : base ≤ 100 := by
    rw [hbase]
    split_ifs
    · exact min_le_left _ _
    · norm_num
  set z : ℚ := if 0 < m then max 0 (base - (m : ℚ) * 5) else base with hz
  have hz0 : (0 : ℚ) ≤ z := by
    rw [hz]
    split_ifs
    · exact le_max_left _ _
    · exact hb0
  have hz1 : z ≤ 100 := by
    rw [hz]
    split_ifs
    · refine max_le (by norm_num) ?_
      have : (0 : ℚ) ≤ (m : ℚ) * 5 := by positivity
      linarith
    · exact hb1
  refine ⟨pyRound1_nonneg hz0, ?_⟩
  have := pyRound1_le_int (n := 100) (by exact_mod_cast hz1)
  simpa using this

end TezKontrol

namespace TezKontrol

/-! ## Numbering-fold characterization (claim C6) -/

theorem numbering_fold (label : String) (groups : List (String × List ℕ))
    (c : CoreState) :
    groups.foldl (numberingChapterStep label) c
      = { c with errors := c.errors ++ groups.filterMap (fun chn =>
          if pySorted chn.2 ≠ List.range' 1 chn.2.length then
            some (mkNumberingError label chn.1 chn.2 (pySorted chn.2))
          else none) } := by
  induction groups generalizing c with
  | nil => simp
  | cons g gs ih =>
      simp only [List.foldl_cons, List.filterMap_cons, numberingChapterStep]
      by_cases h : pySorted g.2 ≠ List.range' 1 g.2.length
      · rw [if_pos h, if_pos h, ih]
        simp [addError]
      · rw [if_neg h, if_neg h, ih]

theorem specNumberingErrors_def (label : String) (items : List String) :
    specNumberingErrors label items
      = (groupByChapter items).filterMap (fun chn =>
          if pySorted chn.2 ≠ List.range' 1 chn.2.length then
            some (mkNumberingError label chn.1 chn.2 (pySorted chn.2))
          else none) := rfl

/-! ## Claim theorems (first batch) -/

/-- C2: the reported compliance score equals the specification formula
`clamp(passed/total*100, 0, 100)` rounded to one decimal and then reduced by
the 5-point-per-missing-section penalty with floor 0 (whenever at least one
check ran), and for all counter values the score lies in `[0, 100]`; the
report's `compliance_score` field is exactly this computation. -/
theorem c2_compliance_score_formula :
    (∀ t p m : ℕ, computeScore (t + 1) p m = specScore (t + 1) p m)
    ∧ (∀ t p m : ℕ, 0 ≤ computeScore t p m ∧ computeScore t p m ≤ 100)
    ∧ (∀ c : CoreState, (generate_report c).compliance_score
        = computeScore c.totalChecks c.passedChecks
            ((reportRequiredSections.filter
              (fun s => ¬ c.sectionsFound.contains s)).length)) :=
  ⟨fun _ p m => computeScore_eq_spec p m (Nat.succ_pos _),
   computeScore_bounds,
   fun _ => rfl⟩

/-- C10: when `total_checks` is 0 at report time the score computation takes
the `100.0` default branch (no division), and only the missing-section
penalty (5 points each, floored at 0) is subtracted. -/
theorem c10_zero_total_score_default :
    (∀ p m : ℕ, computeScore 0 p m = max 0 (100 - 5 * (m : ℚ)))
    ∧ ∀ c : CoreState,
        (generate_report { c with totalChecks := 0 }).compliance_score
          = max 0 (100 - 5 * (((reportRequiredSections.filter
              (fun s => ¬ c.sectionsFound.contains s)).length : ℕ) : ℚ)) := by
  refine ⟨computeScore_zero_total, fun c => ?_⟩
  exact computeScore_zero_total _ _

/-- C9: `analyze` (and hence `analyze_thesis`) returns the 2-tuple
`(report, document)` on a successful load and the bare error-report dict on
a failed load; the two shapes are distinct values of the return type. -/
theorem c9_analyze_return_shapes :
    (∀ (cfg : ThesisConfig) (s : CheckerState) (msg : String),
        (analyze cfg (.error msg) s).1 = .bare (error_report msg))
    ∧ (∀ (cfg : ThesisConfig) (s : CheckerState) (doc : Document),
        ∃ rep : Report, (analyze cfg (.ok doc) s).1 = .tuple2 rep doc)
    ∧ (∀ (cfg : ThesisConfig) (msg : String),
        analyze_thesis cfg (.error msg) = .bare (error_report msg))
    ∧ (∀ (cfg : ThesisConfig) (doc : Document),
        ∃ rep : Report, analyze_thesis cfg (.ok doc) = .tuple2 rep doc)
    ∧ (∀ (rep : Report) (doc : Document) (er : ErrReport),
        AnalyzeResult.tuple2 rep doc ≠ AnalyzeResult.bare er) :=
  ⟨fun _ _ _ => rfl,
   fun _ _ _ => ⟨_, rfl⟩,
   fun _ _ => rfl,
   fun _ _ => ⟨_, rfl⟩,
   fun _ _ _ h => AnalyzeResult.noConfusion h⟩

/-- C1 counterexample: after a complete `analyze_thesis` run on `fixDoc2`
(where every evaluated rule succeeds) the report has `total_checks = 10` and
`passed_checks = 11`, violating `passed_checks ≤ total_checks`; the cause is
visible at `check_table_caption`, whose success branch adds 1 to
`passed_checks` and 0 to `total_checks`. -/
theorem c1_counterexample :
    (reportOf (analyze_thesis DEFAULT_CONFIG (.ok fixDoc2))).total_checks = 10
    ∧ (reportOf (analyze_thesis DEFAULT_CONFIG (.ok fixDoc2))).passed_checks = 11
    ∧ ¬ (reportOf (analyze_thesis DEFAULT_CONFIG (.ok fixDoc2))).passed_checks
        ≤ (reportOf (analyze_thesis DEFAULT_CONFIG (.ok fixDoc2))).total_checks
    ∧ (check_table_caption "Tablo 1.1: Örnek" "Paragraf 5" ({} : CoreState)).totalChecks
        = 0
    ∧ (check_table_caption "Tablo 1.1: Örnek" "Paragraf 5" ({} : CoreState)).passedChecks
        = 1 := by
  with_unfolding_all decide

/-- C1 (amended): a matching table/figure caption increments `passed_checks`
without touching `total_checks` (recording the caption number), while a
mismatch increments `total_checks` without `passed_checks`; hence
`passed_checks` can exceed `total_checks`. -/
theorem c1_amended_caption_counters :
    (∀ (c : CoreState) (text loc : String) (chn : String × String),
        captionNum "Tablo" text = some chn →
          check_table_caption text loc c
            = { c with tablesFound := c.tablesFound ++ [chn.1 ++ "." ++ chn.2],
                       passedChecks := c.passedChecks + 1 })
    ∧ (∀ (c : CoreState) (text loc : String),
        captionNum "Tablo" text = none →
          (check_table_caption text loc c).totalChecks = c.totalChecks + 1
          ∧ (check_table_caption text loc c).passedChecks = c.passedChecks)
    ∧ (∀ (c : CoreState) (text loc : String) (chn : String × String),
        captionNum "Şekil" text = some chn →
          check_figure_caption text loc c
            = { c with figuresFound := c.figuresFound ++ [chn.1 ++ "." ++ chn.2],
                       passedChecks := c.passedChecks + 1 }) := by
  refine ⟨fun c text loc chn h => ?_, fun c text loc h => ?_, fun c text loc chn h => ?_⟩
  · simp only [check_table_caption, h, bumpPassed]
  · refine ⟨?_, ?_⟩ <;> simp [check_table_caption, h, bumpTotal, addError]
  · simp only [check_figure_caption, h, bumpPassed]

theorem c1_amended_caption_counters_witness :
    captionNum "Tablo" "Tablo 2.7: Örnek" = some ("2", "7")
    ∧ check_table_caption "Tablo 2.7: Örnek" "Paragraf 9" ({} : CoreState)
        = { tablesFound := ["2.7"], passedChecks := 1 } := by
  have h : captionNum "Tablo" "Tablo 2.7: Örnek" = some ("2", "7") := by decide
  refine ⟨h, ?_⟩
  have h2 := c1_amended_caption_counters.1 {} "Tablo 2.7: Örnek" "Paragraf 9" ("2", "7") h
  simpa using h2

/-- C6 counterexample: the gap `Tablo 1.1` / `Tablo 1.3` produces a
numbering issue whose `expected` field is the literal `"1, 2, 3, ..."`, not
the `"1, 2, ..."` stated in the claim. -/
theorem c6_counterexample :
    ((check_table_figure_numbering { tablesFound := ["1.1", "1.3"] }
        : CoreState).errors.map FormatError.expected) = ["1, 2, 3, ..."]
    ∧ "1, 2, 3, ..." ≠ "1, 2, ..." := by
  with_unfolding_all decide

theorem numbering_type_step (label : String) (items : List String) (c : CoreState) :
    (if items.isEmpty then c
     else (groupByChapter items).foldl (numberingChapterStep label) c)
      = { c with errors := c.errors ++ specNumberingErrors label items } := by
  by_cases h : items.isEmpty
  · rw [if_pos h]
    have e : items = [] := List.isEmpty_iff.mp h
    subst e
    show c = { c with errors := c.errors ++ ([] : List FormatError) }
    rw [List.append_nil]
  · rw [if_neg h, numbering_fold, specNumberingErrors_def]

/-- C6 (amended): per caption type and chapter, the numbering check emits an
issue iff the sorted collected numbers differ from `[1..N]` (so a permuted
but complete sequence is accepted); the `1.1`/`1.3` gap yields the issue
with expected `"1, 2, 3, ..."` and found `"1, 3"`. -/
theorem c6_amended_numbering_iff :
    (∀ c : CoreState,
        check_table_figure_numbering c
          = { c with errors := c.errors
              ++ specNumberingErrors "Tablo" c.tablesFound
              ++ specNumberingErrors "Şekil" c.figuresFound })
    ∧ ((check_table_figure_numbering { tablesFound := ["1.2", "1.1"] }
        : CoreState).errors = [])
    ∧ ((check_table_figure_numbering { tablesFound := ["1.1", "1.3"] }
        : CoreState).errors.map (fun e => (e.message, e.expected, e.found)))
        = [("Bölüm 1\x27de Tablo numaralandırması sıralı değil", "1, 2, 3, ...",
            "1, 3")] := by
  refine ⟨fun c => ?_, by with_unfolding_all decide, by with_unfolding_all decide⟩
  simp only [check_table_figure_numbering, List.foldl_cons, List.foldl_nil]
  rw [numbering_type_step "Tablo" c.tablesFound c,
    numbering_type_step "Şekil" c.figuresFound]

end TezKontrol

namespace TezKontrol

/-- C7 counterexample: a paragraph whose line spacing is the exact value
18pt and whose run font size resolves to 9pt gets effective line spacing
`round(18/12, 1) = 1.5` from the fixed 12.0 reference, not the `18/9 = 2.0`
that conversion against the resolved base font size would give. -/
theorem c7_counterexample :
    get_effective_line_spacing {} fixExactSpacingPara = 3/2
    ∧ Length.pt (Pt 18) / get_effective_font_size {} fixExactSpacingPara
        (fixExactSpacingPara.runs.headD {}) = 2
    ∧ (3/2 : ℚ) ≠ 2 := by
  refine ⟨by with_unfolding_all decide, by with_unfolding_all decide, by norm_num⟩

/-- C7 (amended): an exact-point or at-least line-spacing value `v` is
normalized to `round(v.pt / 12.0, 1)` — the reference unit is the fixed
constant 12.0, independent of the paragraph's resolved font size. -/
theorem c7_amended_fixed_reference :
    (∀ (doc : Document) (p : Paragraph) (v : Length),
        get_effective_line_spacing doc
          { p with pf := { p.pf with
                           line_spacing := some (.len v),
                           line_spacing_rule := some (.wd .exactly) } }
          = pyRound1 (Length.pt v / 12))
    ∧ (∀ (doc : Document) (p : Paragraph) (v : Length),
        get_effective_line_spacing doc
          { p with pf := { p.pf with
                           line_spacing := some (.len v),
                           line_spacing_rule := some (.wd .atLeast) } }
          = pyRound1 (Length.pt v / 12)) := by
  constructor <;> intro doc p v <;>
    simp [get_effective_line_spacing, resolveLineSpacing, resolveLineSpacingRule,
      get_effective_paragraph_attribute]

set_option maxRecDepth 100000 in
set_option maxHeartbeats 2000000 in
/-- C4 (code bug): `_find_sections` never fills `abstract_paragraphs` (the
collection block is unreachable after `continue`), so the extracted abstract
text is always empty and `_check_abstract` returns without any issue or
check — even for a document whose abstract body has exactly 199 words,
where the claim (and the live branch of `_check_abstract`, shown in the
last conjunct) demands a too-short issue. -/
theorem c4_abstract_check_unreachable :
    (∀ (doc : Document) (c : CoreState), ((find_sections doc c).1).abstractText = "")
    ∧ (∀ (cfg : ThesisConfig) (c : CoreState),
        check_abstract cfg { c with abstractText := "" }
          = { c with abstractText := "" })
    ∧ count_words abstract199 = 199
    ∧ ((check_abstract DEFAULT_CONFIG
          ({ abstractText := abstract199 } : CoreState)).errors.map
        (fun e => (e.category, e.message)))
        = [(ErrorCategory.ABSTRACT, "Özet çok kısa: 199 kelime (minimum 200)")] := by
  refine ⟨fun doc c => rfl, fun cfg c => ?_, ?_, ?_⟩
  · simp [check_abstract]
  · with_unfolding_all decide
  · with_unfolding_all decide

/-! ## Style-chain walk termination (claim C3) -/

theorem styleChainFuel_none (doc : Document) {α : Type}
    (attrOf : StyleDef → Option α) (m : ℕ) :
    styleChainFuel doc attrOf m none = some none := by
  cases m <;> rfl

theorem styleChainFuel_zero_some (doc : Document) {α : Type}
    (attrOf : StyleDef → Option α) (s : StyleDef) :
    styleChainFuel doc attrOf 0 (some s) = none := rfl

theorem styleChainFuel_succ_some (doc : Document) {α : Type}
    (attrOf : StyleDef → Option α) (n : ℕ) (s : StyleDef) :
    styleChainFuel doc attrOf (n + 1) (some s)
      = match attrOf s with
        | some v => some (some v)
        | none => styleChainFuel doc attrOf n (s.basedOn.bind (lookupStyle doc)) :=
  rfl

theorem cyclic_walk_none (n : ℕ) :
    styleChainFuel fixCyclicDoc StyleDef.fontName n (lookupStyle fixCyclicDoc "A")
        = none
    ∧ styleChainFuel fixCyclicDoc StyleDef.fontName n (lookupStyle fixCyclicDoc "B")
        = none := by
  induction n with
  | zero => exact ⟨rfl, rfl⟩
  | succ n ih =>
      constructor
      · show styleChainFuel fixCyclicDoc StyleDef.fontName n
            (lookupStyle fixCyclicDoc "B") = none
        exact ih.2
      · show styleChainFuel fixCyclicDoc StyleDef.fontName n
            (lookupStyle fixCyclicDoc "A") = none
        exact ih.1

/-- C3 counterexample: on the cyclic style registry `A ⇄ B` with the
attribute undefined everywhere, the chain walk of
`get_effective_font_name` never terminates — no fuel ever completes it, so
no "maximum depth constant" bounds the traversal. -/
theorem c3_counterexample :
    ¬ chainWalkTerminates fixCyclicDoc StyleDef.fontName
        (lookupStyle fixCyclicDoc "A") := by
  rintro ⟨n, hn⟩
  rw [(cyclic_walk_none n).1] at hn
  simp at hn

/-- C3 (amended): the chain walk terminates exactly on well-founded inputs:
if iterating `base_style` from the start reaches the end of the chain, the
walk completes (with some fuel), and a completed walk's result is stable
under more fuel; no depth constant guards cyclic chains (see the
counterexample). -/
theorem c3_amended_termination :
    (∀ (doc : Document) {α : Type} (attrOf : StyleDef → Option α)
        (st : Option StyleDef) (n : ℕ),
        (baseStep doc)^[n] st = none → chainWalkTerminates doc attrOf st)
    ∧ (∀ (doc : Document) {α : Type} (attrOf : StyleDef → Option α)
        (n m : ℕ) (st : Option StyleDef) (r : Option α),
        styleChainFuel doc attrOf n st = some r → n ≤ m →
        styleChainFuel doc attrOf m st = some r) := by
  constructor
  · intro doc α attrOf st n
    induction n generalizing st with
    | zero =>
        intro h
        simp only [Function.iterate_zero, id_eq] at h
        subst h
        exact ⟨0, rfl⟩
    | succ n ih =>
        intro h
        match st with
        | none => exact ⟨0, rfl⟩
        | some s =>
            rw [Function.iterate_succ_apply] at h
            cases hattr : attrOf s with
            | some v => exact ⟨1, by rw [styleChainFuel_succ_some, hattr]; rfl⟩
            | none =>
                obtain ⟨k, hk⟩ := ih (baseStep doc (some s)) h
                refine ⟨k + 1, ?_⟩
                rw [styleChainFuel_succ_some, hattr]
                exact hk
  · intro doc α attrOf n
    induction n with
    | zero =>
        intro m st r h hm
        match st with
        | none =>
            rw [styleChainFuel_none] at h
            rw [styleChainFuel_none]
            exact h
        | some s =>
            rw [styleChainFuel_zero_some] at h
            simp at h
    | succ n ih =>
        intro m st r h hm
        match st with
        | none =>
            rw [styleChainFuel_none] at h
            rw [styleChainFuel_none]
            exact h
        | some s =>
            obtain ⟨m', rfl⟩ : ∃ m', m = m' + 1 :=
              ⟨m - 1, by omega⟩
            rw [styleChainFuel_succ_some] at h ⊢
            cases hattr : attrOf s with
            | some v =>
                rw [hattr] at h
                exact h
            | none =>
                rw [hattr] at h
                exact ih m' _ r h (by omega)

theorem c3_amended_termination_witness :
    ((baseStep fixAcyclicDoc)^[1] (lookupStyle fixAcyclicDoc "C") = none
      ∧ chainWalkTerminates fixAcyclicDoc StyleDef.fontName
          (lookupStyle fixAcyclicDoc "C"))
    ∧ (styleChainFuel fixAcyclicDoc StyleDef.fontName 1
          (lookupStyle fixAcyclicDoc "C") = some (some "Arial")
      ∧ (1 : ℕ) ≤ 3
      ∧ styleChainFuel fixAcyclicDoc StyleDef.fontName 3
          (lookupStyle fixAcyclicDoc "C") = some (some "Arial")) := by
  have h : (baseStep fixAcyclicDoc)^[1] (lookupStyle fixAcyclicDoc "C") = none := by
    with_unfolding_all decide
  have h2 : styleChainFuel fixAcyclicDoc StyleDef.fontName 1
      (lookupStyle fixAcyclicDoc "C") = some (some "Arial") := by
    with_unfolding_all decide
  exact ⟨⟨h, c3_amended_termination.1 fixAcyclicDoc StyleDef.fontName _ 1 h⟩,
    h2, by omega,
    c3_amended_termination.2 fixAcyclicDoc StyleDef.fontName 1 3 _ _ h2 (by omega)⟩

end TezKontrol

namespace TezKontrol

/-! ## Re-run determinism (claim C5) -/

theorem runPass_cons (cfg : ThesisConfig) (doc : Document) (i : ℕ) (rest : List ℕ)
    (st : PassST) :
    runPass cfg doc (i :: rest) st = runPass cfg doc rest (passStep cfg doc st i) :=
  rfl

theorem passStep_last (cfg : ThesisConfig) (doc : Document) (st : PassST) (i : ℕ) :
    (passStep cfg doc st i).last = (i : ℤ)
      ∨ (passStep cfg doc st i).last = st.last := by
  simp only [passStep]
  split
  · exact Or.inl rfl
  · exact Or.inr rfl

theorem runPass_last_mem (cfg : ThesisConfig) (doc : Document) :
    ∀ (ixs : List ℕ) (st : PassST),
      (runPass cfg doc ixs st).last = st.last
        ∨ ∃ j ∈ ixs, (runPass cfg doc ixs st).last = (j : ℤ) := by
  intro ixs
  induction ixs with
  | nil => intro st; exact Or.inl rfl
  | cons i rest ih =>
      intro st
      rw [runPass_cons]
      rcases ih (passStep cfg doc st i) with h | ⟨j, hj, hjeq⟩
      · rcases passStep_last cfg doc st i with h2 | h2
        · exact Or.inr ⟨i, List.mem_cons_self i rest, by rw [h, h2]⟩
        · exact Or.inl (by rw [h, h2])
      · exact Or.inr ⟨j, List.mem_cons_of_mem i hj, hjeq⟩

theorem runPass_rerun (cfg : ThesisConfig) (doc : Document) :
    ∀ (ixs : List ℕ), ixs.Pairwise (· < ·) →
      ∀ (c : CoreState) (t f : Bool),
        runPass cfg doc ixs ⟨c, t, f, (runPass cfg doc ixs ⟨c, t, f, -1⟩).last⟩
          = runPass cfg doc ixs ⟨c, t, f, -1⟩ := by
  intro ixs
  induction ixs with
  | nil => intro _ c t f; rfl
  | cons i rest ih =>
      intro hp c t f
      rcases List.pairwise_cons.mp hp with ⟨hlt, hrest⟩
      rcases runPass_last_mem cfg doc (i :: rest) ⟨c, t, f, -1⟩ with hL | ⟨j, hj, hL⟩
      · rw [hL]
      · have hij : i ≤ j := by
          rcases List.mem_cons.mp hj with h | h
          · omega
          · exact (hlt j h).le
        have hL2 := hL
        rw [hL, runPass_cons, runPass_cons]
        rw [runPass_cons] at hL2
        have hstale2 : decide ((j : ℤ) ≠ -1 ∧ ((i : ℕ) : ℤ) = (j : ℤ) + 1) = false := by
          simp only [decide_eq_false_iff_not]
          rintro ⟨-, h2⟩
          omega
        have hstale1 :
            decide ((-1 : ℤ) ≠ -1 ∧ ((i : ℕ) : ℤ) = (-1 : ℤ) + 1) = false := by
          simp
        simp only [passStep] at hL2 ⊢
        rw [hstale2, hstale1]
        rw [hstale1] at hL2
        cases hgo : (passStepGo cfg doc i false ⟨c, t, f⟩).2 with
        | false =>
            simp only [hgo, reduceIte] at hL2 ⊢
            rw [← hL2]
            exact ih hrest _ _ _
        | true =>
            simp only [hgo, reduceIte]

set_option maxHeartbeats 2000000 in
/-- The `analyze` run on a successfully loaded document, written as an explicit
pipeline: only `last_chapter_para_idx` (into the paragraph pass) and
`in_english_abstract` (or-ed with the fresh detection) survive from the
incoming state. -/
theorem analyze_ok_unfold (cfg : ThesisConfig) (doc : Document) (s : CheckerState) :
    analyze cfg (.ok doc) s
      = (.tuple2 (generate_report (postPass cfg doc
            (runPass cfg doc (List.range doc.paragraphs.length)
              ⟨prePass cfg doc, false, true, s.lastChapterParaIdx⟩).core)) doc,
         ⟨postPass cfg doc (runPass cfg doc (List.range doc.paragraphs.length)
              ⟨prePass cfg doc, false, true, s.lastChapterParaIdx⟩).core,
          (runPass cfg doc (List.range doc.paragraphs.length)
              ⟨prePass cfg doc, false, true, s.lastChapterParaIdx⟩).last,
          s.inEnglishAbstract
            || (find_sections doc (parse_toc doc
                  ({ coverEndedAt := find_cover_end doc } : CoreState))).2⟩) := rfl

/-- C5 counterexample: `_reset` does not re-initialise every piece of analysis
state — `last_chapter_para_idx` and `in_english_abstract` keep their values
from the previous run instead of returning to the fresh-instance defaults
`-1` and `False`. -/
theorem c5_counterexample :
    (reset { lastChapterParaIdx := 50 }).lastChapterParaIdx = 50
    ∧ ¬ ((50 : ℤ) = initialState.lastChapterParaIdx)
    ∧ (reset { inEnglishAbstract := true }).inEnglishAbstract = true
    ∧ ¬ (true = initialState.inEnglishAbstract) :=
  ⟨rfl, by decide, rfl, by decide⟩

/-- C5 (amended): `_reset` re-initialises exactly the core analysis state
(flags, registries, issue list, counters), carrying `last_chapter_para_idx`
and `in_english_abstract` over; nevertheless a second `analyze` call on the
same loaded document from the state left by a first fresh-instance call
returns the identical report and the identical end state, so re-analysis of
an unmodified document is deterministic. -/
theorem c5_amended_rerun_determinism :
    (∀ s : CheckerState,
        reset s = ⟨{}, s.lastChapterParaIdx, s.inEnglishAbstract⟩)
    ∧ (∀ (cfg : ThesisConfig) (load : Except String Document),
        analyze cfg load ((analyze cfg load initialState).2)
          = analyze cfg load initialState) := by
  constructor
  · intro s
    rfl
  · intro cfg load
    cases load with
    | error e => rfl
    | ok doc =>
        simp only [analyze_ok_unfold, initialState]
        rw [runPass_rerun cfg doc (List.range doc.paragraphs.length)
          (List.sorted_lt_range doc.paragraphs.length) (prePass cfg doc) false true]
        simp

end TezKontrol

namespace TezKontrol

/-! ## Classification exclusivity (claim C8) -/

/-- C8: a paragraph whose stripped text matches the canonical chapter-heading
pattern is routed into the caption/heading classification family: the full
pass step equals the step whose block-quote / normal-paragraph / epigraph
region is replaced by the identity, so none of the normal-paragraph rules
(body size, justification, 1.5 spacing, indent, before/after spacing) is
ever evaluated against it and no such issue is recorded at its location. -/
theorem c8_heading_exclusivity (cfg : ThesisConfig) (doc : Document) (i : ℕ)
    (stale : Bool) (st : PassNL) (p : Paragraph)
    (hget : doc.paragraphs.get? i = some p)
    (hch : is_chapter_heading (pyStrip (paraText p)) = true) :
    passStepGo cfg doc i stale st = passStepGoHeadingOnly cfg doc i stale st := by
  simp only [passStepGo, passStepGoHeadingOnly, hget, hch, Bool.true_or,
    Bool.or_true, reduceIte]

theorem c8_heading_exclusivity_witness :
    fixDoc2.paragraphs.get? 0 = some fixGirisPara
    ∧ is_chapter_heading (pyStrip (paraText fixGirisPara)) = true
    ∧ passStepGo DEFAULT_CONFIG fixDoc2 0 false ⟨{}, false, true⟩
        = passStepGoHeadingOnly DEFAULT_CONFIG fixDoc2 0 false ⟨{}, false, true⟩ := by
  have h1 : fixDoc2.paragraphs.get? 0 = some fixGirisPara := rfl
  have h2 : is_chapter_heading (pyStrip (paraText fixGirisPara)) = true := by
    with_unfolding_all decide
  exact ⟨h1, h2, c8_heading_exclusivity DEFAULT_CONFIG fixDoc2 0 false
    ⟨{}, false, true⟩ fixGirisPara h1 h2⟩

end TezKontrol
